import Mathlib

/-!
Airdrop dashboard: batch validation and SDK calls.

A shallow embedding of `src/components/AirdropDashboard.js` (the batch
validator `calculateTotal` / `validateInputs`, and `processAirdrop`,
`loadStats`, `loadBalance`) and of `src/utils/airdrop-sdk.js` /
`src/utils/airdrop-sdk.ts` (`executeAirdrop`, `getStats`,
`getRecipientAmount`).

JavaScript values are modelled as follows.

* A string is the list of its characters (`JSString`); `length` counts UTF-16
  code units (`jsLength`).  Lone surrogates are not representable.
* A number is `JSNum`: `NaN`, the two infinities, or a finite value held as a
  rational.  Arithmetic results are rounded to the nearest binary64 value, ties
  to even (`roundDouble`).  The two zeros `+0` and `-0` are identified; the
  embedded code never distinguishes them.
* A thrown exception is the `Except.error` branch carrying `error.message`.
* Notifications keep the template and its interpolated values (`Message`)
  rather than the rendered text.
-/

namespace Airdrop

/-! ## JavaScript numbers -/

/-- A JavaScript number. -/
inductive JSNum where
  | nan
  | fin (q : ℚ)
  | posInf
  | negInf
  deriving DecidableEq

/-- The rational `2 ^ z` for an integer exponent. -/
def pow2 (z : Int) : ℚ :=
  if 0 ≤ z then ((2 ^ z.toNat : Nat) : ℚ) else 1 / ((2 ^ (-z).toNat : Nat) : ℚ)

/-- The rational `10 ^ z` for an integer exponent. -/
def pow10 (z : Int) : ℚ :=
  if 0 ≤ z then ((10 ^ z.toNat : Nat) : ℚ) else 1 / ((10 ^ (-z).toNat : Nat) : ℚ)

/-- Number of binary digits of `n`, counted with at most `fuel` halvings. -/
def bitLength : Nat → Nat → Nat
  | 0, _ => 0
  | fuel + 1, n => if n = 0 then 0 else bitLength fuel (n / 2) + 1

/-- Floor of the binary logarithm (`0` at `0`); `n` halvings always suffice. -/
def log2 (n : Nat) : Nat := bitLength n n - 1

/-- For `a > 0`, the exponent `e` with `2 ^ e ≤ a < 2 ^ (e + 1)`. -/
def ilog2 (a : ℚ) : Int :=
  let e0 : Int := (log2 a.num.toNat : Int) - (log2 a.den : Int)
  if pow2 e0 ≤ a then e0 else e0 - 1

/-- Round a rational to the nearest integer, ties to the even one. -/
def roundHalfEven (q : ℚ) : Int :=
  let f := Rat.floor q
  let r := q - (f : ℚ)
  if r < 1 / 2 then f
  else if 1 / 2 < r then f + 1
  else if f % 2 = 0 then f else f + 1

/-- Round an exact result to binary64: 53 significant bits, exponents
`-1022 .. 1023` (subnormals below), overflow to an infinity. -/
def roundDouble (q : ℚ) : JSNum :=
  if q = 0 then .fin 0
  else
    let a := |q|
    let e := max (ilog2 a) (-1022)
    let ulp := pow2 (e - 52)
    let v := (roundHalfEven (a / ulp) : ℚ) * ulp
    if pow2 1024 ≤ v then (if 0 < q then .posInf else .negInf)
    else .fin (if 0 < q then v else -v)

/-- The JavaScript `+` on numbers. -/
def jsAdd : JSNum → JSNum → JSNum
  | .nan, _ => .nan
  | _, .nan => .nan
  | .posInf, .negInf => .nan
  | .negInf, .posInf => .nan
  | .posInf, _ => .posInf
  | _, .posInf => .posInf
  | .negInf, _ => .negInf
  | _, .negInf => .negInf
  | .fin a, .fin b => roundDouble (a + b)

/-- The JavaScript `*` on numbers. -/
def jsMul : JSNum → JSNum → JSNum
  | .nan, _ => .nan
  | _, .nan => .nan
  | .fin a, .fin b => roundDouble (a * b)
  | .fin a, .posInf => if a = 0 then .nan else if 0 < a then .posInf else .negInf
  | .fin a, .negInf => if a = 0 then .nan else if 0 < a then .negInf else .posInf
  | .posInf, .fin b => if b = 0 then .nan else if 0 < b then .posInf else .negInf
  | .negInf, .fin b => if b = 0 then .nan else if 0 < b then .negInf else .posInf
  | .posInf, .posInf => .posInf
  | .posInf, .negInf => .negInf
  | .negInf, .posInf => .negInf
  | .negInf, .negInf => .posInf

/-- The JavaScript `/` on numbers (a zero divisor is taken as `+0`). -/
def jsDiv : JSNum → JSNum → JSNum
  | .nan, _ => .nan
  | _, .nan => .nan
  | .fin a, .fin b =>
    if b = 0 then (if a = 0 then .nan else if 0 < a then .posInf else .negInf)
    else roundDouble (a / b)
  | .fin _, .posInf => .fin 0
  | .fin _, .negInf => .fin 0
  | .posInf, .fin b => if 0 ≤ b then .posInf else .negInf
  | .negInf, .fin b => if 0 ≤ b then .negInf else .posInf
  | .posInf, .posInf => .nan
  | .posInf, .negInf => .nan
  | .negInf, .posInf => .nan
  | .negInf, .negInf => .nan

/-- The JavaScript `a < b` on numbers: false when either side is `NaN`. -/
def jsLt : JSNum → JSNum → Bool
  | .nan, _ => false
  | _, .nan => false
  | .fin a, .fin b => decide (a < b)
  | .negInf, .negInf => false
  | .negInf, _ => true
  | _, .negInf => false
  | .posInf, _ => false
  | .fin _, .posInf => true

/-- The JavaScript `a > b`. -/
def jsGt (a b : JSNum) : Bool := jsLt b a

/-- The JavaScript `a <= b` on numbers: false when either side is `NaN`. -/
def jsLe : JSNum → JSNum → Bool
  | .nan, _ => false
  | _, .nan => false
  | a, b => a = b || jsLt a b

/-- The global `isNaN` on a number. -/
def isNaN : JSNum → Bool
  | .nan => true
  | _ => false

/-- The expression `x || 0` on a number: `0` when `x` is falsy (`NaN` or zero). -/
def orZero : JSNum → JSNum
  | .nan => .fin 0
  | .fin q => if q = 0 then .fin 0 else .fin q
  | x => x

/-- The constant `LAMPORTS_PER_SOL` of `@solana/web3.js`. -/
def LAMPORTS_PER_SOL : JSNum := .fin 1000000000

/-- A non-negative integer as a JavaScript number. -/
def ofNat (n : Nat) : JSNum := roundDouble (n : ℚ)

/-! ## JavaScript strings -/

deriving instance DecidableEq for Except

/-- A JavaScript string, as the list of its characters. -/
abbrev JSString := List Char

/-- The `length` property: the number of UTF-16 code units. -/
def jsLength (s : JSString) : Nat :=
  (s.map fun c => if c.toNat < 0x10000 then 1 else 2).sum

/-- The characters removed by `trim` and skipped by `parseFloat`: ECMAScript
WhiteSpace and LineTerminator. -/
def isWhiteSpace (c : Char) : Bool :=
  let n := c.toNat
  n = 0x09 || n = 0x0A || n = 0x0B || n = 0x0C || n = 0x0D || n = 0x20 || n = 0xA0
    || n = 0x1680 || (0x2000 ≤ n && n ≤ 0x200A) || n = 0x2028 || n = 0x2029
    || n = 0x202F || n = 0x205F || n = 0x3000 || n = 0xFEFF

/-- The method `String.prototype.trim`. -/
def trim (s : JSString) : JSString :=
  ((s.dropWhile isWhiteSpace).reverse.dropWhile isWhiteSpace).reverse

/-- Truthiness of a string: non-empty. -/
def truthy (s : JSString) : Bool := !s.isEmpty

/-- Worker of `split`: `cur` holds the current piece reversed. -/
def splitAux (sep : Char) : JSString → JSString → List JSString
  | [], cur => [cur.reverse]
  | c :: cs, cur =>
    if c = sep then cur.reverse :: splitAux sep cs [] else splitAux sep cs (c :: cur)

/-- The method `String.prototype.split` with a one-character separator. -/
def split (s : JSString) (sep : Char) : List JSString := splitAux sep s []

/-- The input lines kept by `text.split('\n').filter(x => x.trim())`. -/
def nonBlankLines (text : JSString) : List JSString :=
  (split text '\n').filter fun x => truthy (trim x)

/-- Value of a run of decimal digits. -/
def digitsValue (ds : JSString) : Nat :=
  ds.foldl (fun acc c => 10 * acc + (c.toNat - '0'.toNat)) 0

/-- Remove the literal `lit` from the front of `s`, if it is there. -/
def dropLiteral? : JSString → JSString → Option JSString
  | [], s => some s
  | _ :: _, [] => none
  | p :: ps, c :: cs => if p = c then dropLiteral? ps cs else none

/-- The ExponentPart at the front of `s` (`e` or `E`, an optional sign, digits);
`0` when there is none. -/
def parseExponent (s : JSString) : Int :=
  match s with
  | c :: rest =>
    if c = 'e' ∨ c = 'E' then
      match rest with
      | '+' :: ds => Int.ofNat (digitsValue (ds.takeWhile Char.isDigit))
      | '-' :: ds => - Int.ofNat (digitsValue (ds.takeWhile Char.isDigit))
      | ds => Int.ofNat (digitsValue (ds.takeWhile Char.isDigit))
    else 0
  | [] => 0

/-- The exact value of the longest StrUnsignedDecimalLiteral (other than
`Infinity`) at the front of `s`; `none` when no prefix is one. -/
def parseUnsigned (s : JSString) : Option ℚ :=
  let intPart := s.takeWhile Char.isDigit
  let afterInt := s.dropWhile Char.isDigit
  let fracPart := match afterInt with
    | '.' :: r => r.takeWhile Char.isDigit
    | _ => []
  let afterFrac := match afterInt with
    | '.' :: r => r.dropWhile Char.isDigit
    | _ => afterInt
  if intPart.isEmpty && fracPart.isEmpty then none
  else
    some (((digitsValue (intPart ++ fracPart) : Nat) : ℚ)
      * pow10 (parseExponent afterFrac - (fracPart.length : Int)))

/-- The global `parseFloat` on a string: skip leading white space, read the
longest prefix that is a StrDecimalLiteral, `NaN` when there is none. -/
def parseFloat (s : JSString) : JSNum :=
  let t := s.dropWhile isWhiteSpace
  let neg := match t with
    | '-' :: _ => true
    | _ => false
  let body := match t with
    | '-' :: r => r
    | '+' :: r => r
    | _ => t
  match dropLiteral? "Infinity".toList body with
  | some _ => if neg then .negInf else .posInf
  | none =>
    match parseUnsigned body with
    | none => .nan
    | some q => roundDouble (if neg then -q else q)

/-! ## Library values used by the SDK: `PublicKey` and `BN` -/

/-- The base-58 alphabet of `bs58`. -/
def base58Alphabet : List Char :=
  "123456789ABCDEFGHJKLMNPQRSTUVWXYZabcdefghijkmnopqrstuvwxyz".toList

/-- Number of bytes of the shortest big-endian encoding of `n` (`0` for `0`). -/
def byteLength (n : Nat) : Nat := if n = 0 then 0 else log2 n / 8 + 1

/-- Value of a base-58 digit string; `none` on a character outside the alphabet. -/
def base58Value : JSString → Nat → Option Nat
  | [], acc => some acc
  | c :: cs, acc =>
    match base58Alphabet.indexOf? c with
    | some d => base58Value cs (58 * acc + d)
    | none => none

/-- A `PublicKey` of `@solana/web3.js`: 32 bytes, held as their big-endian value. -/
structure PublicKey where
  bn : Nat
  deriving DecidableEq

/-- The constructor `new PublicKey(value)` on a string: `bs58.decode` (each leading
`1` is a zero byte), then the check that exactly 32 bytes were decoded. -/
def PublicKey.new (value : JSString) : Except String PublicKey :=
  match base58Value value 0 with
  | none => .error "Non-base58 character"
  | some n =>
    if (value.takeWhile (· = '1')).length + byteLength n = 32 then .ok ⟨n⟩
    else .error "Invalid public key input"

/-- Base-58 digits of `n`, most significant first, in front of `acc`. -/
def base58Digits : Nat → Nat → List Char → List Char
  | 0, _, acc => acc
  | fuel + 1, n, acc =>
    if n = 0 then acc
    else base58Digits fuel (n / 58) (base58Alphabet.getD (n % 58) '1' :: acc)

/-- The method `PublicKey.toString()`: `bs58.encode` of the 32 bytes. -/
def PublicKey.toString (k : PublicKey) : JSString :=
  List.replicate (32 - byteLength k.bn) '1' ++ base58Digits 44 k.bn []

/-- The key `SystemProgram.programId` (32 zero bytes). -/
def SystemProgram.programId : PublicKey := ⟨0⟩

/-- Truncation of a rational toward zero. -/
def truncate (q : ℚ) : Int := if 0 ≤ q then Rat.floor q else - Rat.floor (-q)

/-- The constructor `new BN(number)` of `bn.js` on a JavaScript number.  It runs
`_init(number || 0)`, so `NaN` gives `0`; otherwise it gives the integer part, with
an assertion failure unless the magnitude is below `2 ^ 53`. -/
def BN.new (number : JSNum) : Except String Int :=
  match orZero number with
  | .fin q => if |q| < 2 ^ 53 then .ok (truncate q) else .error "Assertion failed"
  | _ => .error "Assertion failed"

/-- The method `BN.toNumber()` on an unsigned 64-bit field: an assertion failure
above 53 bits. -/
def BN.toNumber (n : Nat) : Except String JSNum :=
  if n < 2 ^ 53 then .ok (.fin n) else .error "Number can only safely store up to 53 bits"

/-- Map over an array with a callback that may throw: the first exception
aborts the map. -/
def mapThrow {α β ε : Type} (f : α → Except ε β) : List α → Except ε (List β)
  | [] => .ok []
  | a :: as =>
    match f a with
    | .error e => .error e
    | .ok b =>
      match mapThrow f as with
      | .error e => .error e
      | .ok bs => .ok (b :: bs)

/-! ## The SDK (`src/utils/airdrop-sdk.js`, `src/utils/airdrop-sdk.ts`) -/

/-- A seed passed to `PublicKey.findProgramAddress`: `Buffer.from(text)` or
`key.toBuffer()`. -/
inductive Seed where
  | text (s : String)
  | key (k : PublicKey)
  deriving DecidableEq

/-- The decoded `airdropState` account. -/
structure AirdropStateAccount where
  owner : PublicKey
  totalAirdropped : Nat
  totalAirdrops : Nat
  deriving DecidableEq

/-- The decoded `recipientData` account. -/
structure RecipientDataAccount where
  amountReceived : Nat
  deriving DecidableEq

/-- What the ledger holds at an address, as seen by `program.account.X.fetch`. -/
inductive AccountLookup (α : Type) where
  | missing
  | corrupt
  | found (a : α)
  deriving DecidableEq

/-- The call `program.account.X.fetch(address)`: throws when the account does not
exist and when its data does not decode. -/
def AccountLookup.fetch {α : Type} : AccountLookup α → Except String α
  | .missing => .error "Account does not exist or has no data"
  | .corrupt => .error "Invalid account discriminator"
  | .found a => .ok a

/-- The account state of the ledger that the client reads. -/
structure Ledger where
  airdropState : PublicKey → AccountLookup AirdropStateAccount
  recipientData : PublicKey → AccountLookup RecipientDataAccount
  getBalance : PublicKey → Except String Nat

/-- The request built by
`program.methods.airdrop(recipientPubkeys, amountsInLamports).accounts(...)`. -/
structure AirdropInstruction where
  recipients : List PublicKey
  amounts : List Int
  airdropState : PublicKey
  owner : PublicKey
  recipientLoader : Option PublicKey
  systemProgram : PublicKey
  deriving DecidableEq

/-- An `AirdropSDK` instance together with the external services it calls: PDA
derivation and the submission of a built instruction (`.rpc()` once every account
is provided), which answers with a transaction id or an error and leaves the
ledger in a new state.  The
program id is a field: the source holds a placeholder to be replaced by the id of
the deployed program. -/
structure AirdropSDK where
  programId : PublicKey
  walletPublicKey : PublicKey
  findProgramAddress : List Seed → PublicKey → PublicKey × Nat
  rpc : Ledger → AirdropInstruction → Except String JSString × Ledger

/-- An external step taken by `executeAirdrop`, in order. -/
inductive SdkEvent where
  | derivedAddress (seeds : List Seed)
  | submitted (ix : AirdropInstruction)
  deriving DecidableEq

/-- The run of an SDK call that may change the ledger. -/
structure SdkRun where
  events : List SdkEvent
  result : Except String JSString
  ledger : Ledger

/-- The statistics object returned by `getStats`. -/
structure Stats where
  totalAirdropped : JSNum
  totalAirdrops : JSNum
  owner : Option JSString
  deriving DecidableEq

namespace AirdropSDK

/-- Source: `getAirdropStatePDA` (airdrop-sdk.js 26-31). -/
def getAirdropStatePDA (sdk : AirdropSDK) : PublicKey × Nat :=
  sdk.findProgramAddress [.text "airdrop_state"] sdk.programId

/-- Source: `getRecipientDataPDA` (airdrop-sdk.js 36-41). -/
def getRecipientDataPDA (sdk : AirdropSDK) (recipient : PublicKey) : PublicKey × Nat :=
  sdk.findProgramAddress [.text "recipient_data", .key recipient] sdk.programId

/-- Source: `executeAirdrop` (airdrop-sdk.js 64-90).  With no recipient,
`recipientPubkeys[0]` is `undefined` and `.rpc()` throws on the account that is
not provided, before an instruction is built. -/
def executeAirdrop (sdk : AirdropSDK) (ledger : Ledger)
    (recipients : List JSString) (amountsInSol : List JSNum) : SdkRun :=
  if recipients.length ≠ amountsInSol.length then
    ⟨[], .error "Recipients and amounts arrays must have the same length", ledger⟩
  else
    let airdropState := (sdk.getAirdropStatePDA).1
    let ev := [SdkEvent.derivedAddress [.text "airdrop_state"]]
    match mapThrow (fun sol => BN.new (jsMul sol LAMPORTS_PER_SOL)) amountsInSol with
    | .error e => ⟨ev, .error e, ledger⟩
    | .ok amountsInLamports =>
      match mapThrow PublicKey.new recipients with
      | .error e => ⟨ev, .error e, ledger⟩
      | .ok recipientPubkeys =>
        match recipientPubkeys.head? with
        | none => ⟨ev, .error "Invalid arguments: recipientLoader not provided.", ledger⟩
        | some recipientLoader =>
          let ix : AirdropInstruction :=
            { recipients := recipientPubkeys
              amounts := amountsInLamports
              airdropState := airdropState
              owner := sdk.walletPublicKey
              recipientLoader := some recipientLoader
              systemProgram := SystemProgram.programId }
          let tx := sdk.rpc ledger ix
          ⟨ev ++ [.submitted ix], tx.1, tx.2⟩

/-- The catch branch of `getStats` (airdrop-sdk.js 116-123). -/
def defaultStats : Stats :=
  { totalAirdropped := .fin 0, totalAirdrops := .fin 0, owner := some [] }

/-- The try block of `getStats` (airdrop-sdk.js 109-115). -/
def readStats (sdk : AirdropSDK) (ledger : Ledger) : Except String Stats :=
  match (ledger.airdropState (sdk.getAirdropStatePDA).1).fetch with
  | .error e => .error e
  | .ok state =>
    match BN.toNumber state.totalAirdropped with
    | .error e => .error e
    | .ok totalAirdropped =>
      match BN.toNumber state.totalAirdrops with
      | .error e => .error e
      | .ok totalAirdrops =>
        .ok { totalAirdropped := jsDiv totalAirdropped LAMPORTS_PER_SOL
              totalAirdrops := totalAirdrops
              owner := some state.owner.toString }

/-- Source: `getStats` (airdrop-sdk.js 105-124): any exception of the try block is
answered with the default values. -/
def getStats (sdk : AirdropSDK) (ledger : Ledger) : Except String Stats :=
  match readStats sdk ledger with
  | .ok stats => .ok stats
  | .error _ => .ok defaultStats

/-- Source: `getRecipientAmount` (airdrop-sdk.js 129-140). -/
def getRecipientAmount (sdk : AirdropSDK) (ledger : Ledger) (recipient : JSString) :
    Except String JSNum :=
  match PublicKey.new recipient with
  | .error e => .error e
  | .ok recipientPubkey =>
    let recipientDataPDA := (sdk.getRecipientDataPDA recipientPubkey).1
    let attempt : Except String JSNum :=
      match (ledger.recipientData recipientDataPDA).fetch with
      | .error e => .error e
      | .ok recipientData =>
        match BN.toNumber recipientData.amountReceived with
        | .error e => .error e
        | .ok n => .ok (jsDiv n LAMPORTS_PER_SOL)
    match attempt with
    | .ok amount => .ok amount
    | .error _ => .ok (.fin 0)

end AirdropSDK

/-! ### The TypeScript copy of the SDK (`src/utils/airdrop-sdk.ts`) -/

namespace AirdropSDKTs

/-- Source: `executeAirdrop` (airdrop-sdk.ts 73-102).  With no recipient,
`recipientPubkeys[0]` is `undefined` and `.rpc()` throws on the account that is
not provided, before an instruction is built. -/
def executeAirdrop (sdk : AirdropSDK) (ledger : Ledger)
    (recipients : List JSString) (amountsInSol : List JSNum) : SdkRun :=
  if recipients.length ≠ amountsInSol.length then
    ⟨[], .error "Recipients and amounts arrays must have the same length", ledger⟩
  else
    let airdropState := (sdk.getAirdropStatePDA).1
    let ev := [SdkEvent.derivedAddress [.text "airdrop_state"]]
    match mapThrow (fun sol => BN.new (jsMul sol LAMPORTS_PER_SOL)) amountsInSol with
    | .error e => ⟨ev, .error e, ledger⟩
    | .ok amountsInLamports =>
      match mapThrow PublicKey.new recipients with
      | .error e => ⟨ev, .error e, ledger⟩
      | .ok recipientPubkeys =>
        match recipientPubkeys.head? with
        | none => ⟨ev, .error "Invalid arguments: recipientLoader not provided.", ledger⟩
        | some recipientLoader =>
          let ix : AirdropInstruction :=
            { recipients := recipientPubkeys
              amounts := amountsInLamports
              airdropState := airdropState
              owner := sdk.walletPublicKey
              recipientLoader := some recipientLoader
              systemProgram := SystemProgram.programId }
          let tx := sdk.rpc ledger ix
          ⟨ev ++ [.submitted ix], tx.1, tx.2⟩

/-- Source: `getStats` (airdrop-sdk.ts 117-131): no try block, every exception of
the read propagates. -/
def getStats (sdk : AirdropSDK) (ledger : Ledger) : Except String Stats :=
  AirdropSDK.readStats sdk ledger

end AirdropSDKTs

/-! ## The dashboard (`src/components/AirdropDashboard.js`) -/

/-- The text handed to `showNotification`, as its template and interpolated values. -/
inductive Message where
  /-- The text `Please enter at least one recipient`. -/
  | noRecipients
  /-- The text `Number of recipients must match number of amounts`. -/
  | countMismatch
  /-- The text `Invalid address: ${recipient}`. -/
  | invalidAddress (recipient : JSString)
  /-- The text `Invalid amount: ${amount}`. -/
  | invalidAmount (amount : JSString)
  /-- The text `Insufficient balance. Need ${total} SOL but have ${adminBalance} SOL`. -/
  | insufficientBalance (total adminBalance : JSNum)
  /-- The text `Airdrop successful! Transaction: ${txId.substring(0, 8)}...`. -/
  | airdropSuccessful (txId : JSString)
  /-- The text `Airdrop failed: ` followed by `error.message`. -/
  | airdropFailed (errorMessage : String)
  deriving DecidableEq

/-- The second argument of `showNotification`. -/
inductive NotificationType where
  | success
  | error
  deriving DecidableEq

/-- The `notification` state value. -/
structure Notification where
  message : Message
  type : NotificationType
  deriving DecidableEq

/-- An entry of `recentAirdrops`. -/
structure AirdropRecord where
  id : Nat
  txId : JSString
  recipients : Nat
  totalAmount : JSNum
  timestamp : JSString
  status : String
  deriving DecidableEq

/-- The React state of the `AirdropDashboard` component. -/
structure DashboardState where
  recipients : JSString
  amounts : JSString
  isProcessing : Bool
  adminBalance : JSNum
  stats : Stats
  recentAirdrops : List AirdropRecord
  notification : Option Notification
  isInitialized : Bool
  deriving DecidableEq

/-- What the component gets from its hooks and the clock: the memoised `sdk`
(`null` while no wallet is connected), `wallet.publicKey`, whether `connection` is
set, `Date.now()` and `new Date().toLocaleString()`. -/
structure Env where
  sdk : Option AirdropSDK
  walletPublicKey : Option PublicKey
  hasConnection : Bool
  now : Nat
  localeString : JSString

/-- A call that leaves the component: to the SDK or to the connection. -/
inductive Call where
  | executeAirdrop (recipients : List JSString) (amounts : List JSNum)
  | getStats
  | getBalance (key : PublicKey)
  deriving DecidableEq

/-- The run of an event handler: resulting state, resulting ledger, calls made. -/
structure Run where
  state : DashboardState
  ledger : Ledger
  calls : List Call

namespace AirdropDashboard

/-- Source: `showNotification` (AirdropDashboard.js 87-90); the timer that clears
the notification after five seconds is not part of the model. -/
def showNotification (s : DashboardState) (message : Message)
    (type : NotificationType) : DashboardState :=
  { s with notification := some ⟨message, type⟩ }

/-- Source: `calculateTotal` (AirdropDashboard.js 107-113). -/
def calculateTotal (amounts : JSString) : JSNum :=
  let amountArray := (split amounts '\n').filter fun a => truthy (trim a)
  amountArray.foldl (fun sum amount =>
    let parsed := orZero (parseFloat amount)
    jsAdd sum parsed) (.fin 0)

/-- Source: `validateInputs` (AirdropDashboard.js 115-153).  Each `for` loop
returns at the first element that fails its test. -/
def validateInputs (s : DashboardState) : Bool × DashboardState :=
  let recipientArray := (split s.recipients '\n').filter fun r => truthy (trim r)
  let amountArray := (split s.amounts '\n').filter fun a => truthy (trim a)
  if recipientArray.length = 0 then
    (false, showNotification s .noRecipients .error)
  else if recipientArray.length ≠ amountArray.length then
    (false, showNotification s .countMismatch .error)
  else
    match recipientArray.find? fun recipient =>
        jsLength recipient < 32 || jsLength recipient > 44 with
    | some recipient => (false, showNotification s (.invalidAddress recipient) .error)
    | none =>
      match amountArray.find? fun amount =>
          let parsed := parseFloat amount
          isNaN parsed || jsLe parsed (.fin 0) with
      | some amount => (false, showNotification s (.invalidAmount amount) .error)
      | none =>
        let total := calculateTotal s.amounts
        if jsGt total s.adminBalance then
          (false, showNotification s (.insufficientBalance total s.adminBalance) .error)
        else (true, s)

/-- Source: `loadStats` (AirdropDashboard.js 65-75). -/
def loadStats (env : Env) (ledger : Ledger) (s : DashboardState) :
    DashboardState × List Call :=
  match env.sdk with
  | none => (s, [])
  | some sdk =>
    match sdk.getStats ledger with
    | .ok currentStats =>
      ({ s with stats := currentStats, isInitialized := true }, [.getStats])
    | .error _ => ({ s with isInitialized := false }, [.getStats])

/-- Source: `loadBalance` (AirdropDashboard.js 77-85). -/
def loadBalance (env : Env) (ledger : Ledger) (s : DashboardState) :
    DashboardState × List Call :=
  match env.walletPublicKey with
  | none => (s, [])
  | some publicKey =>
    if !env.hasConnection then (s, [])
    else
      match ledger.getBalance publicKey with
      | .ok balance =>
        ({ s with adminBalance := jsDiv (ofNat balance) LAMPORTS_PER_SOL },
          [.getBalance publicKey])
      | .error _ => (s, [.getBalance publicKey])

/-- Source: `processAirdrop` (AirdropDashboard.js 155-192).  The handler reads
`recipients` and `amounts` of the render it was created in, that is of `s`. -/
def processAirdrop (env : Env) (ledger : Ledger) (s : DashboardState) : Run :=
  match env.sdk with
  | none => ⟨s, ledger, []⟩
  | some sdk =>
    let v := validateInputs s
    if !v.1 then ⟨v.2, ledger, []⟩
    else
      let s1 := { v.2 with isProcessing := true }
      let recipientArray := (split s.recipients '\n').filter fun r => truthy (trim r)
      let amountArray :=
        ((split s.amounts '\n').filter fun a => truthy (trim a)).map fun a => parseFloat a
      let run := sdk.executeAirdrop ledger recipientArray amountArray
      let submit := Call.executeAirdrop recipientArray amountArray
      match run.result with
      | .ok txId =>
        let total := calculateTotal s.amounts
        let entry : AirdropRecord :=
          { id := env.now
            txId := txId
            recipients := recipientArray.length
            totalAmount := total
            timestamp := env.localeString
            status := "completed" }
        let s2 := { s1 with recentAirdrops := (entry :: s1.recentAirdrops).take 5 }
        let s3 := { s2 with recipients := [], amounts := [] }
        let r4 := loadStats env run.ledger s3
        let r5 := loadBalance env run.ledger r4.1
        let s6 := showNotification r5.1 (.airdropSuccessful txId) .success
        ⟨{ s6 with isProcessing := false }, run.ledger, submit :: (r4.2 ++ r5.2)⟩
      | .error e =>
        let s2 := showNotification s1 (.airdropFailed e) .error
        ⟨{ s2 with isProcessing := false }, run.ledger, [submit]⟩

/-- One use of the form: the operator fills the two text areas and clicks the
button that runs `processAirdrop`, in the environment of that moment. -/
structure Submission where
  env : Env
  recipients : JSString
  amounts : JSString

/-- Source: the `onChange` handlers `setRecipients(e.target.value)` and
`setAmounts(e.target.value)` (AirdropDashboard.js 297, 307) followed by the click
handler `processAirdrop`; the calls made are appended to those made so far. -/
def submitForm (r : Run) (sub : Submission) : Run :=
  let typed := { r.state with recipients := sub.recipients, amounts := sub.amounts }
  let run := processAirdrop sub.env r.ledger typed
  ⟨run.state, run.ledger, r.calls ++ run.calls⟩

/-- A session: submissions of the form, one after the other. -/
def session (start : Run) (subs : List Submission) : Run :=
  subs.foldl submitForm start

/-- The entry that `processAirdrop` puts in front of `recentAirdrops`
(AirdropDashboard.js 169-176) for the inputs of `s` and the transaction `txId`. -/
def recordOf (env : Env) (s : DashboardState) (txId : JSString) : AirdropRecord :=
  { id := env.now
    txId := txId
    recipients := (nonBlankLines s.recipients).length
    totalAmount := calculateTotal s.amounts
    timestamp := env.localeString
    status := "completed" }

end AirdropDashboard

/-! ## Sample values -/

/-- The component state after mount (the `useState` initial values) with the two
text areas and the cached balance filled in. -/
def formState (recipients amounts : String) (adminBalance : JSNum) : DashboardState :=
  { recipients := recipients.toList
    amounts := amounts.toList
    isProcessing := false
    adminBalance := adminBalance
    stats := { totalAirdropped := .fin 0, totalAirdrops := .fin 0, owner := none }
    recentAirdrops := []
    notification := none
    isInitialized := false }

/-- A ledger on which no program account exists and every balance is zero. -/
def emptyLedger : Ledger :=
  { airdropState := fun _ => .missing
    recipientData := fun _ => .missing
    getBalance := fun _ => .ok 0 }

/-- A ledger on which every program account exists with data that does not decode. -/
def corruptLedger : Ledger :=
  { airdropState := fun _ => .corrupt
    recipientData := fun _ => .corrupt
    getBalance := fun _ => .ok 0 }

/-- A ledger on which every recipient account records `2 ^ 53` lamports received. -/
def largeAmountLedger : Ledger :=
  { airdropState := fun _ => .missing
    recipientData := fun _ => .found ⟨9007199254740992⟩
    getBalance := fun _ => .ok 0 }

/-- An SDK instance whose external services are stand-ins: a fixed address per
seed list and a submission that always succeeds without changing the ledger. -/
def sampleSdk : AirdropSDK :=
  { programId := ⟨1⟩
    walletPublicKey := ⟨2⟩
    findProgramAddress := fun seeds _ =>
      match seeds with
      | [.text _, .key k] => (⟨k.bn + 2000⟩, 255)
      | _ => (⟨1000⟩, 255)
    rpc := fun ledger _ => (.ok "5VERv8NMvzbJMEkV8xnrLkEaWRtSz9CosKDYjCJjBRnb".toList, ledger) }

/-- A connected wallet using `sampleSdk`, at clock reading `now`. -/
def sampleEnvAt (now : Nat) : Env :=
  { sdk := some sampleSdk
    walletPublicKey := some ⟨2⟩
    hasConnection := true
    now := now
    localeString := "11/14/2023, 10:13:20 PM".toList }

/-- A submission of one valid address and the given amount text at clock
reading `now`. -/
def sampleSubmission (now : Nat) (amounts : String) : AirdropDashboard.Submission :=
  { env := sampleEnvAt now
    recipients := "7xKXtg2CW87d97TXJSDpbD5jBkheTqA83TZRuJosgAsU".toList
    amounts := amounts.toList }

/-- A ledger without program accounts on which every balance is 100 SOL. -/
def fundedLedger : Ledger :=
  { airdropState := fun _ => .missing
    recipientData := fun _ => .missing
    getBalance := fun _ => .ok 100000000000 }

/-- The component just mounted, with a cached balance of `100`, on `fundedLedger`. -/
def sampleStart : Run :=
  { state := formState "" "" (.fin 100)
    ledger := fundedLedger
    calls := [] }

/-- A connected wallet using `sampleSdk`. -/
def sampleEnv : Env :=
  { sdk := some sampleSdk
    walletPublicKey := some ⟨2⟩
    hasConnection := true
    now := 1700000000000
    localeString := "11/14/2023, 10:13:20 PM".toList }

/-! ## Theorems -/

open AirdropDashboard

/-! ### Numbers and arrays -/

theorem jsGt_zero_not_rejected (p : JSNum) (h : jsGt p (.fin 0) = true) :
    isNaN p = false ∧ jsLe p (.fin 0) = false ∧ orZero p = p := by
  cases p with
  | nan => simp [jsGt, jsLt] at h
  | fin q =>
    have hq : 0 < q := by simpa [jsGt, jsLt] using h
    refine ⟨rfl, ?_, ?_⟩
    · simp [jsLe, jsLt, hq.ne', hq.le]
    · simp [orZero, hq.ne']
  | posInf => simp [isNaN, jsLe, jsLt, orZero]
  | negInf => simp [jsGt, jsLt] at h

theorem jsGt_eq_false_of_jsLe (a b : JSNum) (h : jsLe a b = true) : jsGt a b = false := by
  cases a <;> cases b <;> simp_all [jsLe, jsGt, jsLt]
  rename_i x y
  rcases h with h | h
  · exact h.le
  · exact h.le

/-! ### `validateInputs`, check by check -/

theorem validateInputs_empty (s : DashboardState)
    (h : (nonBlankLines s.recipients).length = 0) :
    validateInputs s = (false, showNotification s .noRecipients .error) := by
  unfold nonBlankLines at h
  unfold validateInputs
  simp only []
  rw [if_pos h]

theorem validateInputs_mismatch (s : DashboardState)
    (h0 : (nonBlankLines s.recipients).length ≠ 0)
    (h : (nonBlankLines s.recipients).length ≠ (nonBlankLines s.amounts).length) :
    validateInputs s = (false, showNotification s .countMismatch .error) := by
  unfold nonBlankLines at h0 h
  unfold validateInputs
  simp only []
  rw [if_neg h0, if_pos h]

theorem validateInputs_bad_address (s : DashboardState) (r : JSString)
    (h0 : (nonBlankLines s.recipients).length ≠ 0)
    (h1 : (nonBlankLines s.recipients).length = (nonBlankLines s.amounts).length)
    (h : (nonBlankLines s.recipients).find?
      (fun recipient => jsLength recipient < 32 || jsLength recipient > 44) = some r) :
    validateInputs s = (false, showNotification s (.invalidAddress r) .error) := by
  unfold nonBlankLines at h0 h1 h
  unfold validateInputs
  simp only []
  rw [if_neg h0, if_neg (not_not.mpr h1), h]

theorem validateInputs_bad_amount (s : DashboardState) (a : JSString)
    (h0 : (nonBlankLines s.recipients).length ≠ 0)
    (h1 : (nonBlankLines s.recipients).length = (nonBlankLines s.amounts).length)
    (h2 : (nonBlankLines s.recipients).find?
      (fun recipient => jsLength recipient < 32 || jsLength recipient > 44) = none)
    (h : (nonBlankLines s.amounts).find?
      (fun amount => isNaN (parseFloat amount) || jsLe (parseFloat amount) (.fin 0)) = some a) :
    validateInputs s = (false, showNotification s (.invalidAmount a) .error) := by
  unfold nonBlankLines at h0 h1 h2 h
  unfold validateInputs
  simp only []
  rw [if_neg h0, if_neg (not_not.mpr h1), h2]
  simp only []
  rw [h]

theorem validateInputs_balance_check (s : DashboardState)
    (h0 : (nonBlankLines s.recipients).length ≠ 0)
    (h1 : (nonBlankLines s.recipients).length = (nonBlankLines s.amounts).length)
    (h2 : (nonBlankLines s.recipients).find?
      (fun recipient => jsLength recipient < 32 || jsLength recipient > 44) = none)
    (h3 : (nonBlankLines s.amounts).find?
      (fun amount => isNaN (parseFloat amount) || jsLe (parseFloat amount) (.fin 0)) = none) :
    validateInputs s =
      if jsGt (calculateTotal s.amounts) s.adminBalance then
        (false, showNotification s
          (.insufficientBalance (calculateTotal s.amounts) s.adminBalance) .error)
      else (true, s) := by
  unfold nonBlankLines at h0 h1 h2 h3
  unfold validateInputs
  simp only []
  rw [if_neg h0, if_neg (not_not.mpr h1), h2]
  simp only []
  rw [h3]

theorem validateInputs_true_or_error (s : DashboardState) :
    validateInputs s = (true, s) ∨
      ∃ m, validateInputs s = (false, showNotification s m .error) := by
  by_cases h0 : (nonBlankLines s.recipients).length = 0
  · exact Or.inr ⟨_, validateInputs_empty s h0⟩
  by_cases h1 : (nonBlankLines s.recipients).length = (nonBlankLines s.amounts).length
  swap
  · exact Or.inr ⟨_, validateInputs_mismatch s h0 h1⟩
  cases h2 : (nonBlankLines s.recipients).find?
      (fun recipient => jsLength recipient < 32 || jsLength recipient > 44) with
  | some r => exact Or.inr ⟨_, validateInputs_bad_address s r h0 h1 h2⟩
  | none =>
    cases h3 : (nonBlankLines s.amounts).find?
        (fun amount => isNaN (parseFloat amount) || jsLe (parseFloat amount) (.fin 0)) with
    | some a => exact Or.inr ⟨_, validateInputs_bad_amount s a h0 h1 h2 h3⟩
    | none =>
      rw [validateInputs_balance_check s h0 h1 h2 h3]
      by_cases hb : jsGt (calculateTotal s.amounts) s.adminBalance = true
      · rw [if_pos hb]; exact Or.inr ⟨_, rfl⟩
      · rw [if_neg hb]; exact Or.inl rfl

theorem validateInputs_true_imp (s : DashboardState) (h : (validateInputs s).1 = true) :
    jsGt (calculateTotal s.amounts) s.adminBalance = false := by
  by_cases h0 : (nonBlankLines s.recipients).length = 0
  · rw [validateInputs_empty s h0] at h; simp at h
  by_cases h1 : (nonBlankLines s.recipients).length = (nonBlankLines s.amounts).length
  swap
  · rw [validateInputs_mismatch s h0 h1] at h; simp at h
  cases h2 : (nonBlankLines s.recipients).find?
      (fun recipient => jsLength recipient < 32 || jsLength recipient > 44) with
  | some r => rw [validateInputs_bad_address s r h0 h1 h2] at h; simp at h
  | none =>
    cases h3 : (nonBlankLines s.amounts).find?
        (fun amount => isNaN (parseFloat amount) || jsLe (parseFloat amount) (.fin 0)) with
    | some a => rw [validateInputs_bad_amount s a h0 h1 h2 h3] at h; simp at h
    | none =>
      rw [validateInputs_balance_check s h0 h1 h2 h3] at h
      by_cases hb : jsGt (calculateTotal s.amounts) s.adminBalance = true
      · rw [if_pos hb] at h; simp at h
      · simpa using hb

theorem processAirdrop_calls_of_rejected (env : Env) (ledger : Ledger) (s : DashboardState)
    (h : (validateInputs s).1 = false) : (processAirdrop env ledger s).calls = [] := by
  unfold processAirdrop
  cases env.sdk with
  | none => rfl
  | some sdk => simp [h]

theorem find?_none_of_addresses_ok (rs : List JSString)
    (h : ∀ r ∈ rs, 32 ≤ jsLength r ∧ jsLength r ≤ 44) :
    rs.find? (fun recipient => jsLength recipient < 32 || jsLength recipient > 44) = none := by
  rw [List.find?_eq_none]
  intro r hr
  have := h r hr
  simp only [Bool.or_eq_true, decide_eq_true_eq, not_or, not_lt, gt_iff_lt]
  exact this

theorem find?_none_of_amounts_ok (as : List JSString)
    (h : ∀ a ∈ as, isNaN (parseFloat a) = false ∧ jsLe (parseFloat a) (.fin 0) = false) :
    as.find? (fun amount => isNaN (parseFloat amount) || jsLe (parseFloat amount) (.fin 0))
      = none := by
  rw [List.find?_eq_none]
  intro a ha
  have := h a ha
  simp [this.1, this.2]

theorem find?_first_of_exists {α : Type} (p : α → Bool) (l : List α) (h : ∃ a ∈ l, p a = true) :
    ∃ pre a post, l = pre ++ a :: post ∧ (∀ x ∈ pre, p x = false) ∧ p a = true ∧
      l.find? p = some a := by
  have hs : (l.find? p).isSome = true := by
    rw [List.find?_isSome]
    exact h
  obtain ⟨a, ha⟩ := Option.isSome_iff_exists.mp hs
  obtain ⟨hpa, pre, post, hl, hpre⟩ := List.find?_eq_some.mp ha
  refine ⟨pre, a, post, hl, ?_, hpa, ha⟩
  intro x hx
  simpa using hpre x hx

/-! ### C1 -/

/-- C1, counterexample to the claim as stated: with no recipient line, amounts
`5` and a balance of `1` the total exceeds the balance, yet the error shown is
`Please enter at least one recipient`, not the insufficient-balance error. -/
theorem over_balance_reports_missing_recipients :
    jsGt (calculateTotal (formState "" "5" (.fin 1)).amounts)
        (formState "" "5" (.fin 1)).adminBalance = true
    ∧ validateInputs (formState "" "5" (.fin 1))
        = (false, showNotification (formState "" "5" (.fin 1)) .noRecipients .error)
    ∧ (validateInputs (formState "" "5" (.fin 1))).2.notification
        ≠ some ⟨.insufficientBalance (.fin 5) (.fin 1), .error⟩ := by
  decide!

/-- C1, as amended: when the total of the amounts exceeds the cached balance,
`validateInputs` returns false and shows an error notification, `processAirdrop`
makes no call at all (so none to `sdk.executeAirdrop`), and the notification is the
insufficient-balance one, carrying the total and the balance, whenever the four
earlier checks pass. -/
theorem validateInputs_total_over_balance (s : DashboardState)
    (h : jsGt (calculateTotal s.amounts) s.adminBalance = true) :
    (validateInputs s).1 = false
    ∧ (∃ m, (validateInputs s).2 = showNotification s m .error)
    ∧ ((nonBlankLines s.recipients).length ≠ 0 →
        (nonBlankLines s.recipients).length = (nonBlankLines s.amounts).length →
        (∀ r ∈ nonBlankLines s.recipients, 32 ≤ jsLength r ∧ jsLength r ≤ 44) →
        (∀ a ∈ nonBlankLines s.amounts,
          isNaN (parseFloat a) = false ∧ jsLe (parseFloat a) (.fin 0) = false) →
        (validateInputs s).2 = showNotification s
          (.insufficientBalance (calculateTotal s.amounts) s.adminBalance) .error)
    ∧ ∀ env ledger, (processAirdrop env ledger s).calls = [] := by
  have hfalse : (validateInputs s).1 = false := by
    cases hv : (validateInputs s).1 with
    | false => rfl
    | true =>
      have := validateInputs_true_imp s hv
      rw [h] at this
      exact absurd this (by decide)
  refine ⟨hfalse, ?_, ?_, fun env ledger => processAirdrop_calls_of_rejected env ledger s hfalse⟩
  · rcases validateInputs_true_or_error s with ht | ⟨m, hm⟩
    · rw [ht] at hfalse
      exact absurd hfalse (by simp)
    · exact ⟨m, by rw [hm]⟩
  · intro h0 h1 h2 h3
    rw [validateInputs_balance_check s h0 h1 (find?_none_of_addresses_ok _ h2)
      (find?_none_of_amounts_ok _ h3), if_pos h]

/-- C1, the amended statement at one valid address, amount `20` and balance `10`. -/
theorem validateInputs_total_over_balance_witness :
    (validateInputs (formState "7xKXtg2CW87d97TXJSDpbD5jBkheTqA83TZRuJosgAsU" "20" (.fin 10))).2
      = showNotification (formState "7xKXtg2CW87d97TXJSDpbD5jBkheTqA83TZRuJosgAsU" "20" (.fin 10))
          (.insufficientBalance (.fin 20) (.fin 10)) .error
    ∧ (processAirdrop sampleEnv emptyLedger
        (formState "7xKXtg2CW87d97TXJSDpbD5jBkheTqA83TZRuJosgAsU" "20" (.fin 10))).calls = [] := by
  have key := validateInputs_total_over_balance
    (formState "7xKXtg2CW87d97TXJSDpbD5jBkheTqA83TZRuJosgAsU" "20" (.fin 10)) (by decide!)
  refine ⟨?_, key.2.2.2 sampleEnv emptyLedger⟩
  have h := key.2.2.1 (by decide) (by decide) (by decide) (by decide!)
  rw [h]
  decide!

/-! ### C2 -/

/-- C2, counterexample to the claim as stated: zero recipient lines against one
amount line differ in count, yet the error shown is `Please enter at least one
recipient`, not the count-mismatch error. -/
theorem count_differs_reports_missing_recipients :
    (nonBlankLines (formState "" "1.5" (.fin 10)).recipients).length
      ≠ (nonBlankLines (formState "" "1.5" (.fin 10)).amounts).length
    ∧ validateInputs (formState "" "1.5" (.fin 10))
        = (false, showNotification (formState "" "1.5" (.fin 10)) .noRecipients .error)
    ∧ (validateInputs (formState "" "1.5" (.fin 10))).2.notification
        ≠ some ⟨.countMismatch, .error⟩ := by
  decide

/-- C2, as amended: with at least one recipient line and a different number of
amount lines (blank lines filtered out), `validateInputs` returns false with the
error `Number of recipients must match number of amounts`, and `processAirdrop`
makes no call, so it never reaches `sdk.executeAirdrop`. -/
theorem validateInputs_count_mismatch (s : DashboardState)
    (h0 : (nonBlankLines s.recipients).length ≠ 0)
    (h : (nonBlankLines s.recipients).length ≠ (nonBlankLines s.amounts).length) :
    validateInputs s = (false, showNotification s .countMismatch .error)
    ∧ ∀ env ledger, (processAirdrop env ledger s).calls = [] := by
  have hv := validateInputs_mismatch s h0 h
  refine ⟨hv, fun env ledger => processAirdrop_calls_of_rejected env ledger s ?_⟩
  rw [hv]

/-- C2, the amended statement at recipients `ADDR_A` and amounts `1.5`, `2.0`. -/
theorem validateInputs_count_mismatch_witness :
    nonBlankLines (formState "ADDR_A" "1.5\n2.0" (.fin 10)).recipients = ["ADDR_A".toList]
    ∧ nonBlankLines (formState "ADDR_A" "1.5\n2.0" (.fin 10)).amounts
        = ["1.5".toList, "2.0".toList]
    ∧ validateInputs (formState "ADDR_A" "1.5\n2.0" (.fin 10))
        = (false, showNotification (formState "ADDR_A" "1.5\n2.0" (.fin 10)) .countMismatch .error)
    ∧ (processAirdrop sampleEnv emptyLedger (formState "ADDR_A" "1.5\n2.0" (.fin 10))).calls = [] :=
  ⟨by decide, by decide,
    (validateInputs_count_mismatch (formState "ADDR_A" "1.5\n2.0" (.fin 10))
      (by decide) (by decide)).1,
    (validateInputs_count_mismatch (formState "ADDR_A" "1.5\n2.0" (.fin 10))
      (by decide) (by decide)).2 sampleEnv emptyLedger⟩

/-! ### C3 -/

theorem executeAirdropTs_eq (sdk : AirdropSDK) (ledger : Ledger) (recipients : List JSString)
    (amountsInSol : List JSNum) :
    AirdropSDKTs.executeAirdrop sdk ledger recipients amountsInSol
      = sdk.executeAirdrop ledger recipients amountsInSol := rfl

theorem executeAirdrop_events_head (sdk : AirdropSDK) (ledger : Ledger)
    (recipients : List JSString) (amountsInSol : List JSNum)
    (h : recipients.length = amountsInSol.length) :
    (sdk.executeAirdrop ledger recipients amountsInSol).events.head?
      = some (.derivedAddress [.text "airdrop_state"]) := by
  unfold AirdropSDK.executeAirdrop
  rw [if_neg (not_not.mpr h)]
  simp only []
  split
  · rfl
  · split
    · rfl
    · split
      · rfl
      · rfl

/-- C3: in both copies of the SDK, `executeAirdrop` on lists of different length
throws `Recipients and amounts arrays must have the same length` with no external
step taken (no address derived, no instruction built or submitted, ledger
untouched); on lists of equal length the guard is passed: the first step taken is
the derivation of the state address. -/
theorem executeAirdrop_length_guard (sdk : AirdropSDK) (ledger : Ledger)
    (recipients : List JSString) (amountsInSol : List JSNum) :
    (recipients.length ≠ amountsInSol.length →
      (sdk.executeAirdrop ledger recipients amountsInSol).events = []
      ∧ (sdk.executeAirdrop ledger recipients amountsInSol).result
          = .error "Recipients and amounts arrays must have the same length"
      ∧ (AirdropSDKTs.executeAirdrop sdk ledger recipients amountsInSol).events = []
      ∧ (AirdropSDKTs.executeAirdrop sdk ledger recipients amountsInSol).result
          = .error "Recipients and amounts arrays must have the same length")
    ∧ (recipients.length = amountsInSol.length →
      (sdk.executeAirdrop ledger recipients amountsInSol).events.head?
          = some (.derivedAddress [.text "airdrop_state"])
      ∧ (AirdropSDKTs.executeAirdrop sdk ledger recipients amountsInSol).events.head?
          = some (.derivedAddress [.text "airdrop_state"])) := by
  constructor
  · intro h
    rw [executeAirdropTs_eq]
    unfold AirdropSDK.executeAirdrop
    rw [if_pos h]
    exact ⟨rfl, rfl, rfl, rfl⟩
  · intro h
    rw [executeAirdropTs_eq]
    exact ⟨executeAirdrop_events_head sdk ledger recipients amountsInSol h,
      executeAirdrop_events_head sdk ledger recipients amountsInSol h⟩

/-- C3 at one recipient against no amount, and at one recipient against one amount. -/
theorem executeAirdrop_length_guard_witness :
    (sampleSdk.executeAirdrop emptyLedger ["7xKXtg2CW87d97TXJSDpbD5jBkheTqA83TZRuJosgAsU".toList]
        []).result = .error "Recipients and amounts arrays must have the same length"
    ∧ (sampleSdk.executeAirdrop emptyLedger ["7xKXtg2CW87d97TXJSDpbD5jBkheTqA83TZRuJosgAsU".toList]
        [.fin 1]).events.head? = some (.derivedAddress [.text "airdrop_state"]) :=
  ⟨((executeAirdrop_length_guard sampleSdk emptyLedger
      ["7xKXtg2CW87d97TXJSDpbD5jBkheTqA83TZRuJosgAsU".toList] []).1 (by decide)).2.1,
    ((executeAirdrop_length_guard sampleSdk emptyLedger
      ["7xKXtg2CW87d97TXJSDpbD5jBkheTqA83TZRuJosgAsU".toList] [.fin 1]).2 (by decide)).1⟩

/-! ### C4, C5 -/

theorem getStats_of_read_error (sdk : AirdropSDK) (ledger : Ledger) (e : String)
    (h : AirdropSDK.readStats sdk ledger = .error e) :
    sdk.getStats ledger = .ok AirdropSDK.defaultStats := by
  unfold AirdropSDK.getStats
  rw [h]

theorem getStats_never_throws (sdk : AirdropSDK) (ledger : Ledger) :
    ∃ stats, sdk.getStats ledger = .ok stats := by
  unfold AirdropSDK.getStats
  cases AirdropSDK.readStats sdk ledger with
  | ok stats => exact ⟨stats, rfl⟩
  | error e => exact ⟨_, rfl⟩

theorem readStats_of_fetch_error (sdk : AirdropSDK) (ledger : Ledger) (e : String)
    (h : (ledger.airdropState (sdk.getAirdropStatePDA).1).fetch = .error e) :
    AirdropSDK.readStats sdk ledger = .error e := by
  unfold AirdropSDK.readStats
  rw [h]

/-- The TypeScript copy of `getStats`, which the dashboard does not import, throws
on a missing account. -/
theorem getStatsTs_missing (sdk : AirdropSDK) (ledger : Ledger)
    (h : ledger.airdropState (sdk.getAirdropStatePDA).1 = .missing) :
    AirdropSDKTs.getStats sdk ledger = .error "Account does not exist or has no data" := by
  unfold AirdropSDKTs.getStats
  exact readStats_of_fetch_error sdk ledger _ (by rw [h]; rfl)

/-- C4: `getStats` of `airdrop-sdk.js`, the implementation the dashboard calls in
`loadStats`, returns `{totalAirdropped: 0, totalAirdrops: 0, owner: ''}` when the
state account does not exist, and returns without throwing on every ledger. -/
theorem getStats_missing_account (sdk : AirdropSDK) (ledger : Ledger)
    (h : ledger.airdropState (sdk.getAirdropStatePDA).1 = .missing) :
    sdk.getStats ledger
      = .ok { totalAirdropped := .fin 0, totalAirdrops := .fin 0, owner := some [] }
    ∧ (∀ other : Ledger, ∃ stats, sdk.getStats other = .ok stats)
    ∧ ∀ env : Env, env.sdk = some sdk → ∀ s,
        (loadStats env ledger s).1.stats
          = { totalAirdropped := .fin 0, totalAirdrops := .fin 0, owner := some [] } := by
  have hg : sdk.getStats ledger = .ok AirdropSDK.defaultStats :=
    getStats_of_read_error sdk ledger _
      (readStats_of_fetch_error sdk ledger _ (by rw [h]; rfl))
  refine ⟨hg, fun other => getStats_never_throws sdk other, ?_⟩
  intro env henv s
  unfold loadStats
  rw [henv]
  simp only []
  rw [hg]
  rfl

/-- C4 on the ledger without program accounts. -/
theorem getStats_missing_account_witness :
    sampleSdk.getStats emptyLedger
      = .ok { totalAirdropped := .fin 0, totalAirdrops := .fin 0, owner := some [] }
    ∧ (loadStats sampleEnv emptyLedger (formState "" "" (.fin 0))).1.stats
      = { totalAirdropped := .fin 0, totalAirdrops := .fin 0, owner := some [] } :=
  ⟨(getStats_missing_account sampleSdk emptyLedger rfl).1,
    (getStats_missing_account sampleSdk emptyLedger rfl).2.2 sampleEnv rfl _⟩

/-- C5, the code at the failing input: on a ledger whose state account exists but
does not decode, `getStats` of `airdrop-sdk.js` returns the default statistics,
the same answer as for a missing account, where the TypeScript copy throws. -/
theorem getStats_corrupt_account_defaulted (sdk : AirdropSDK) :
    sdk.getStats corruptLedger
      = .ok { totalAirdropped := .fin 0, totalAirdrops := .fin 0, owner := some [] }
    ∧ sdk.getStats corruptLedger = sdk.getStats emptyLedger
    ∧ AirdropSDKTs.getStats sdk corruptLedger = .error "Invalid account discriminator" := by
  have hc : sdk.getStats corruptLedger = .ok AirdropSDK.defaultStats :=
    getStats_of_read_error sdk corruptLedger _ (readStats_of_fetch_error sdk corruptLedger _ rfl)
  have he : sdk.getStats emptyLedger = .ok AirdropSDK.defaultStats :=
    getStats_of_read_error sdk emptyLedger _ (readStats_of_fetch_error sdk emptyLedger _ rfl)
  refine ⟨hc, by rw [hc, he], ?_⟩
  unfold AirdropSDKTs.getStats
  exact readStats_of_fetch_error sdk corruptLedger _ rfl

/-! ### C6 -/

theorem getRecipientAmount_missing (sdk : AirdropSDK) (ledger : Ledger) (recipient : JSString)
    (key : PublicKey) (hk : PublicKey.new recipient = .ok key)
    (h : ledger.recipientData (sdk.getRecipientDataPDA key).1 = .missing) :
    sdk.getRecipientAmount ledger recipient = .ok (.fin 0) := by
  unfold AirdropSDK.getRecipientAmount
  rw [hk]
  simp only []
  rw [h]
  rfl

theorem getRecipientAmount_found (sdk : AirdropSDK) (ledger : Ledger) (recipient : JSString)
    (key : PublicKey) (hk : PublicKey.new recipient = .ok key) (acc : RecipientDataAccount)
    (h : ledger.recipientData (sdk.getRecipientDataPDA key).1 = .found acc) :
    sdk.getRecipientAmount ledger recipient =
      if acc.amountReceived < 2 ^ 53 then
        .ok (jsDiv (.fin acc.amountReceived) LAMPORTS_PER_SOL)
      else .ok (.fin 0) := by
  unfold AirdropSDK.getRecipientAmount
  rw [hk]
  simp only []
  rw [h]
  simp only [AccountLookup.fetch, BN.toNumber]
  split_ifs <;> rfl

/-- C6, the code at the failing input: for a valid address whose recipient account
exists and records `2 ^ 53` lamports, `getRecipientAmount` returns `0`, not the
recorded amount divided by `LAMPORTS_PER_SOL` (about 9007199.25). -/
theorem getRecipientAmount_large_amount_zero (sdk : AirdropSDK) :
    PublicKey.new "7xKXtg2CW87d97TXJSDpbD5jBkheTqA83TZRuJosgAsU".toList
      = .ok ⟨46733141855879098285762372194515348240999494138783838316680587882038796392939⟩
    ∧ sdk.getRecipientAmount largeAmountLedger
        "7xKXtg2CW87d97TXJSDpbD5jBkheTqA83TZRuJosgAsU".toList = .ok (.fin 0)
    ∧ jsDiv (.fin 9007199254740992) LAMPORTS_PER_SOL = .fin (4835703278458517 / 536870912) := by
  have hk : PublicKey.new "7xKXtg2CW87d97TXJSDpbD5jBkheTqA83TZRuJosgAsU".toList
      = .ok ⟨46733141855879098285762372194515348240999494138783838316680587882038796392939⟩ := by
    decide!
  refine ⟨hk, ?_, by decide!⟩
  rw [getRecipientAmount_found sdk largeAmountLedger _ _ hk ⟨9007199254740992⟩ rfl]
  decide

/-! ### C7 -/

/-- C7, counterexample to the claim as stated: one valid address with the amount
line `Infinity`, which does not parse to a finite number, and a balance of `10`.
The amount check lets the line pass; the input is rejected by the balance check,
with the insufficient-balance error instead of the invalid-amount error. -/
theorem infinite_amount_reports_insufficient_balance :
    parseFloat "Infinity".toList = .posInf
    ∧ validateInputs (formState "7xKXtg2CW87d97TXJSDpbD5jBkheTqA83TZRuJosgAsU" "Infinity" (.fin 10))
      = (false, showNotification
          (formState "7xKXtg2CW87d97TXJSDpbD5jBkheTqA83TZRuJosgAsU" "Infinity" (.fin 10))
          (.insufficientBalance .posInf (.fin 10)) .error)
    ∧ (validateInputs
        (formState "7xKXtg2CW87d97TXJSDpbD5jBkheTqA83TZRuJosgAsU" "Infinity" (.fin 10))).2.notification
      ≠ some ⟨.invalidAmount "Infinity".toList, .error⟩ := by
  decide!

/-- C7, as amended: with at least one recipient, equal counts and every address
32 to 44 long, if some amount line parses to `NaN` or to a number `<= 0`, then
`validateInputs` returns false with the invalid-amount error naming the first such
line, as written. -/
theorem validateInputs_invalid_amount (s : DashboardState)
    (h0 : (nonBlankLines s.recipients).length ≠ 0)
    (h1 : (nonBlankLines s.recipients).length = (nonBlankLines s.amounts).length)
    (h2 : ∀ r ∈ nonBlankLines s.recipients, 32 ≤ jsLength r ∧ jsLength r ≤ 44)
    (h : ∃ a ∈ nonBlankLines s.amounts,
      isNaN (parseFloat a) = true ∨ jsLe (parseFloat a) (.fin 0) = true) :
    ∃ before amount after,
      nonBlankLines s.amounts = before ++ amount :: after
      ∧ (∀ x ∈ before, isNaN (parseFloat x) = false ∧ jsLe (parseFloat x) (.fin 0) = false)
      ∧ (isNaN (parseFloat amount) = true ∨ jsLe (parseFloat amount) (.fin 0) = true)
      ∧ validateInputs s = (false, showNotification s (.invalidAmount amount) .error) := by
  obtain ⟨before, amount, after, hl, hpre, hbad, hfind⟩ :=
    find?_first_of_exists
      (fun amount => isNaN (parseFloat amount) || jsLe (parseFloat amount) (.fin 0))
      (nonBlankLines s.amounts)
      (by
        obtain ⟨a, ha, hp⟩ := h
        exact ⟨a, ha, by simpa using hp⟩)
  refine ⟨before, amount, after, hl, ?_, by simpa using hbad, ?_⟩
  · intro x hx
    simpa using hpre x hx
  · exact validateInputs_bad_amount s amount h0 h1 (find?_none_of_addresses_ok _ h2) hfind

/-- C7, the amended statement at two valid addresses and amounts `1.5`, `abc`: the
error names `abc`. -/
theorem validateInputs_invalid_amount_witness :
    validateInputs (formState
        ("7xKXtg2CW87d97TXJSDpbD5jBkheTqA83TZRuJosgAsU\n" ++
          "9WzDnYfhBz3Dv3YiPEZJCcUyBm8vUVPvKKBSUMEPvLea") "1.5\nabc" (.fin 10))
      = (false, showNotification (formState
        ("7xKXtg2CW87d97TXJSDpbD5jBkheTqA83TZRuJosgAsU\n" ++
          "9WzDnYfhBz3Dv3YiPEZJCcUyBm8vUVPvKKBSUMEPvLea") "1.5\nabc" (.fin 10))
          (.invalidAmount "abc".toList) .error) := by
  obtain ⟨before, amount, after, hl, -, hbad, hv⟩ :=
    validateInputs_invalid_amount (formState
        ("7xKXtg2CW87d97TXJSDpbD5jBkheTqA83TZRuJosgAsU\n" ++
          "9WzDnYfhBz3Dv3YiPEZJCcUyBm8vUVPvKKBSUMEPvLea") "1.5\nabc" (.fin 10))
      (by decide) (by decide) (by decide) ⟨"abc".toList, by decide, Or.inl (by decide)⟩
  have h1 : nonBlankLines (formState
        ("7xKXtg2CW87d97TXJSDpbD5jBkheTqA83TZRuJosgAsU\n" ++
          "9WzDnYfhBz3Dv3YiPEZJCcUyBm8vUVPvKKBSUMEPvLea") "1.5\nabc" (.fin 10)).amounts
      = ["1.5".toList, "abc".toList] := by decide
  rw [h1] at hl
  have hr : amount = "abc".toList := by
    match before, hl with
    | [], hl =>
      have ha : amount = "1.5".toList := by
        have := List.head_eq_of_cons_eq hl
        exact this.symm
      rw [ha] at hbad
      exact absurd hbad (by decide!)
    | [_], hl =>
      have := List.tail_eq_of_cons_eq hl
      exact (List.head_eq_of_cons_eq this).symm
    | _ :: _ :: _, hl =>
      have := congrArg List.length hl
      simp at this
  rw [hv, hr]

/-! ### C8 -/

/-- C8: with at least one recipient and equal counts, if some recipient line is
shorter than 32 or longer than 44, then `validateInputs` returns false with the
invalid-address error naming the first such line. -/
theorem validateInputs_invalid_address (s : DashboardState)
    (h0 : (nonBlankLines s.recipients).length ≠ 0)
    (h1 : (nonBlankLines s.recipients).length = (nonBlankLines s.amounts).length)
    (h : ∃ r ∈ nonBlankLines s.recipients, jsLength r < 32 ∨ 44 < jsLength r) :
    ∃ before recipient after,
      nonBlankLines s.recipients = before ++ recipient :: after
      ∧ (∀ x ∈ before, 32 ≤ jsLength x ∧ jsLength x ≤ 44)
      ∧ (jsLength recipient < 32 ∨ 44 < jsLength recipient)
      ∧ validateInputs s = (false, showNotification s (.invalidAddress recipient) .error) := by
  obtain ⟨before, recipient, after, hl, hpre, hbad, hfind⟩ :=
    find?_first_of_exists
      (fun recipient => decide (jsLength recipient < 32) || decide (jsLength recipient > 44))
      (nonBlankLines s.recipients)
      (by
        obtain ⟨r, hr, hp⟩ := h
        exact ⟨r, hr, by simpa using hp⟩)
  refine ⟨before, recipient, after, hl, ?_, by simpa using hbad, ?_⟩
  · intro x hx
    simpa using hpre x hx
  · exact validateInputs_bad_address s recipient h0 h1 hfind

/-- C8 at recipients `short` and amounts `1.0`. -/
theorem validateInputs_invalid_address_witness :
    validateInputs (formState "short" "1.0" (.fin 10))
      = (false, showNotification (formState "short" "1.0" (.fin 10))
          (.invalidAddress "short".toList) .error) := by
  obtain ⟨before, recipient, after, hl, -, -, hv⟩ :=
    validateInputs_invalid_address (formState "short" "1.0" (.fin 10)) (by decide) (by decide)
      ⟨"short".toList, by decide, Or.inl (by decide)⟩
  have hr : recipient = "short".toList := by
    have h1 : nonBlankLines (formState "short" "1.0" (.fin 10)).recipients = ["short".toList] := by
      decide
    rw [h1] at hl
    cases before with
    | nil => exact (by simpa using hl.symm : recipient = "short".toList ∧ after = []).1
    | cons b bs =>
      have := congrArg List.length hl
      simp at this
  rw [hv, hr]

/-! ### C9 -/

theorem foldl_orZero_eq (l : List JSString) (acc : JSNum)
    (h : ∀ a ∈ l, orZero (parseFloat a) = parseFloat a) :
    l.foldl (fun sum amount => jsAdd sum (orZero (parseFloat amount))) acc
      = (l.map parseFloat).foldl jsAdd acc := by
  induction l generalizing acc with
  | nil => rfl
  | cons a as ih =>
    simp only [List.foldl_cons, List.map_cons]
    rw [h a (List.mem_cons_self a as)]
    exact ih _ (fun x hx => h x (List.mem_cons_of_mem a hx))

theorem calculateTotal_eq_sum (amounts : JSString)
    (h : ∀ a ∈ nonBlankLines amounts, jsGt (parseFloat a) (.fin 0) = true) :
    calculateTotal amounts = ((nonBlankLines amounts).map parseFloat).foldl jsAdd (.fin 0) := by
  unfold calculateTotal
  exact foldl_orZero_eq (nonBlankLines amounts) (.fin 0)
    (fun a ha => (jsGt_zero_not_rejected _ (h a ha)).2.2)

/-- C9, counterexample to the claim as stated: three valid addresses, amounts
`0.2`, `0.4`, `0.3` and the balance of 900000000 lamports, `0.9`.  Every amount
parses to a number `> 0` and the exact sum of the three parsed values equals the
balance, yet `validateInputs` rejects the batch: the running binary64 sum is
`0.9000000000000001`, above `0.9`.  The same lines in the order `0.3`, `0.4`,
`0.2` are accepted. -/
theorem exact_sum_within_balance_rejected :
    (nonBlankLines "0.2\n0.4\n0.3".toList).map parseFloat
      = [.fin (3602879701896397 / 18014398509481984),
          .fin (3602879701896397 / 9007199254740992),
          .fin (5404319552844595 / 18014398509481984)]
    ∧ jsDiv (ofNat 900000000) LAMPORTS_PER_SOL = .fin (8106479329266893 / 9007199254740992)
    ∧ (3602879701896397 / 18014398509481984 + 3602879701896397 / 9007199254740992
        + 5404319552844595 / 18014398509481984 : ℚ) = 8106479329266893 / 9007199254740992
    ∧ validateInputs (formState
        ("7xKXtg2CW87d97TXJSDpbD5jBkheTqA83TZRuJosgAsU\n" ++
          "9WzDnYfhBz3Dv3YiPEZJCcUyBm8vUVPvKKBSUMEPvLea\n" ++
          "11111111111111111111111111111111") "0.2\n0.4\n0.3"
        (jsDiv (ofNat 900000000) LAMPORTS_PER_SOL))
      = (false, showNotification (formState
        ("7xKXtg2CW87d97TXJSDpbD5jBkheTqA83TZRuJosgAsU\n" ++
          "9WzDnYfhBz3Dv3YiPEZJCcUyBm8vUVPvKKBSUMEPvLea\n" ++
          "11111111111111111111111111111111") "0.2\n0.4\n0.3"
        (jsDiv (ofNat 900000000) LAMPORTS_PER_SOL))
          (.insufficientBalance (.fin (4053239664633447 / 4503599627370496))
            (.fin (8106479329266893 / 9007199254740992))) .error)
    ∧ (validateInputs (formState
        ("7xKXtg2CW87d97TXJSDpbD5jBkheTqA83TZRuJosgAsU\n" ++
          "9WzDnYfhBz3Dv3YiPEZJCcUyBm8vUVPvKKBSUMEPvLea\n" ++
          "11111111111111111111111111111111") "0.3\n0.4\n0.2"
        (jsDiv (ofNat 900000000) LAMPORTS_PER_SOL))).1 = true := by
  decide!

/-- C9, as amended: an input with at least one recipient, as many amounts as
recipients, every address 32 to 44 long, every amount parsing to a number `> 0`
and the running sum of the amounts, added in binary64 left to right from `0` as
`calculateTotal` adds them, `<=` the balance passes `validateInputs` (true, state
unchanged, so no notification), and `calculateTotal` is that sum. -/
theorem validateInputs_accepts_valid_batch (s : DashboardState)
    (h0 : (nonBlankLines s.recipients).length ≠ 0)
    (h1 : (nonBlankLines s.recipients).length = (nonBlankLines s.amounts).length)
    (h2 : ∀ r ∈ nonBlankLines s.recipients, 32 ≤ jsLength r ∧ jsLength r ≤ 44)
    (h3 : ∀ a ∈ nonBlankLines s.amounts, jsGt (parseFloat a) (.fin 0) = true)
    (h4 : jsLe (((nonBlankLines s.amounts).map parseFloat).foldl jsAdd (.fin 0))
      s.adminBalance = true) :
    validateInputs s = (true, s)
    ∧ calculateTotal s.amounts
        = ((nonBlankLines s.amounts).map parseFloat).foldl jsAdd (.fin 0) := by
  have ht := calculateTotal_eq_sum s.amounts h3
  refine ⟨?_, ht⟩
  have h3' : ∀ a ∈ nonBlankLines s.amounts,
      isNaN (parseFloat a) = false ∧ jsLe (parseFloat a) (.fin 0) = false :=
    fun a ha => ⟨(jsGt_zero_not_rejected _ (h3 a ha)).1, (jsGt_zero_not_rejected _ (h3 a ha)).2.1⟩
  rw [validateInputs_balance_check s h0 h1 (find?_none_of_addresses_ok _ h2)
    (find?_none_of_amounts_ok _ h3')]
  have hgt : jsGt (calculateTotal s.amounts) s.adminBalance = false := by
    rw [ht]
    exact jsGt_eq_false_of_jsLe _ _ h4
  rw [hgt]
  rfl

/-- C9, the amended statement at two valid addresses, amounts `1.5` and `2.0`,
balance `10`: accepted, and the total is `3.5`. -/
theorem validateInputs_accepts_valid_batch_witness :
    validateInputs (formState
        ("7xKXtg2CW87d97TXJSDpbD5jBkheTqA83TZRuJosgAsU\n" ++
          "9WzDnYfhBz3Dv3YiPEZJCcUyBm8vUVPvKKBSUMEPvLea") "1.5\n2.0" (.fin 10))
      = (true, formState
        ("7xKXtg2CW87d97TXJSDpbD5jBkheTqA83TZRuJosgAsU\n" ++
          "9WzDnYfhBz3Dv3YiPEZJCcUyBm8vUVPvKKBSUMEPvLea") "1.5\n2.0" (.fin 10))
    ∧ calculateTotal (formState
        ("7xKXtg2CW87d97TXJSDpbD5jBkheTqA83TZRuJosgAsU\n" ++
          "9WzDnYfhBz3Dv3YiPEZJCcUyBm8vUVPvKKBSUMEPvLea") "1.5\n2.0" (.fin 10)).amounts
      = .fin (7 / 2) := by
  have key := validateInputs_accepts_valid_batch (formState
        ("7xKXtg2CW87d97TXJSDpbD5jBkheTqA83TZRuJosgAsU\n" ++
          "9WzDnYfhBz3Dv3YiPEZJCcUyBm8vUVPvKKBSUMEPvLea") "1.5\n2.0" (.fin 10))
      (by decide) (by decide) (by decide) (by decide!) (by decide!)
  refine ⟨key.1, ?_⟩
  rw [key.2]
  decide!

/-! ### C10 -/

theorem mapThrow_ok_of_forall {α β ε : Type} (f : α → Except ε β) (l : List α)
    (h : ∀ a ∈ l, ∃ b, f a = .ok b) : ∃ bs, mapThrow f l = .ok bs := by
  induction l with
  | nil => exact ⟨[], rfl⟩
  | cons a as ih =>
    obtain ⟨b, hb⟩ := h a (List.mem_cons_self a as)
    obtain ⟨bs, hbs⟩ := ih (fun x hx => h x (List.mem_cons_of_mem a hx))
    exact ⟨b :: bs, by simp only [mapThrow, hb, hbs]⟩

theorem mapThrow_ok_aligned {α β ε : Type} (f : α → Except ε β) (l : List α) (bs : List β)
    (h : mapThrow f l = .ok bs) :
    bs.length = l.length ∧
      ∀ (i : Nat) (a : α), l[i]? = some a → ∃ b, bs[i]? = some b ∧ f a = .ok b := by
  induction l generalizing bs with
  | nil =>
    simp only [mapThrow, Except.ok.injEq] at h
    subst h
    exact ⟨rfl, fun i a ha => by simp at ha⟩
  | cons x xs ih =>
    unfold mapThrow at h
    cases hx : f x with
    | error e => rw [hx] at h; simp at h
    | ok b =>
      rw [hx] at h
      cases hxs : mapThrow f xs with
      | error e => rw [hxs] at h; simp at h
      | ok cs =>
        rw [hxs] at h
        simp only [Except.ok.injEq] at h
        subst h
        obtain ⟨hlen, hidx⟩ := ih cs hxs
        refine ⟨by simp [hlen], ?_⟩
        intro i a ha
        cases i with
        | zero =>
          simp only [List.getElem?_cons_zero, Option.some.injEq] at ha
          subst ha
          exact ⟨b, by simp, hx⟩
        | succ j =>
          simp only [List.getElem?_cons_succ] at ha
          obtain ⟨c, hc, hfc⟩ := hidx j a ha
          exact ⟨c, by simpa using hc, hfc⟩

theorem BN_new_fin (q : ℚ) :
    BN.new (.fin q) = if |q| < 2 ^ 53 then .ok (truncate q) else .error "Assertion failed" := by
  by_cases hq : q = 0
  · subst hq
    rfl
  · have h : orZero (.fin q) = .fin q := by
      simp only [orZero]
      rw [if_neg hq]
    unfold BN.new
    rw [h]

theorem BN_new_nan : BN.new .nan = .ok 0 := by
  decide!

theorem BN_new_ok_iff (x : JSNum) (n : Int) :
    BN.new x = .ok n ↔
      (x = .nan ∧ n = 0) ∨ ∃ q, x = .fin q ∧ |q| < 2 ^ 53 ∧ n = truncate q := by
  cases x with
  | nan =>
    rw [BN_new_nan]
    constructor
    · intro h
      exact Or.inl ⟨rfl, (Except.ok.inj h).symm⟩
    · rintro (⟨-, rfl⟩ | ⟨q, hq, -⟩)
      · rfl
      · exact absurd hq (by simp)
  | fin q =>
    rw [BN_new_fin]
    constructor
    · intro h
      by_cases h1 : |q| < 2 ^ 53
      · rw [if_pos h1] at h
        exact Or.inr ⟨q, rfl, h1, (Except.ok.inj h).symm⟩
      · rw [if_neg h1] at h
        exact absurd h (by simp)
    · rintro (⟨hx, -⟩ | ⟨r, hr, h1, rfl⟩)
      · exact absurd hx (by simp)
      · cases hr
        rw [if_pos h1]
  | posInf =>
    constructor
    · intro h
      exact absurd h (by simp [BN.new, orZero])
    · rintro (⟨hx, -⟩ | ⟨r, hr, -⟩)
      · exact absurd hx (by simp)
      · exact absurd hr (by simp)
  | negInf =>
    constructor
    · intro h
      exact absurd h (by simp [BN.new, orZero])
    · rintro (⟨hx, -⟩ | ⟨r, hr, -⟩)
      · exact absurd hx (by simp)
      · exact absurd hr (by simp)

theorem executeAirdrop_of_converted (sdk : AirdropSDK) (ledger : Ledger)
    (recipients : List JSString) (amountsInSol : List JSNum)
    (keys : List PublicKey) (lamports : List Int) (loader : PublicKey)
    (hlen : recipients.length = amountsInSol.length)
    (hl : mapThrow (fun sol => BN.new (jsMul sol LAMPORTS_PER_SOL)) amountsInSol = .ok lamports)
    (hk : mapThrow PublicKey.new recipients = .ok keys)
    (h0 : keys.head? = some loader) :
    (sdk.executeAirdrop ledger recipients amountsInSol).events
        = [.derivedAddress [.text "airdrop_state"],
            .submitted { recipients := keys
                         amounts := lamports
                         airdropState := (sdk.getAirdropStatePDA).1
                         owner := sdk.walletPublicKey
                         recipientLoader := some loader
                         systemProgram := SystemProgram.programId }]
    ∧ (sdk.executeAirdrop ledger recipients amountsInSol).result
        = (sdk.rpc ledger { recipients := keys
                            amounts := lamports
                            airdropState := (sdk.getAirdropStatePDA).1
                            owner := sdk.walletPublicKey
                            recipientLoader := some loader
                            systemProgram := SystemProgram.programId }).1 := by
  unfold AirdropSDK.executeAirdrop
  rw [if_neg (not_not.mpr hlen)]
  simp only []
  rw [hl]
  simp only []
  rw [hk]
  simp only []
  rw [h0]
  exact ⟨rfl, rfl⟩

/-- C10, counterexample to the claim as stated, on two pairs of equal-length
lists.  On `["short"]` and `[1]` the recipient is not a 32-byte base-58 key,
`new PublicKey` throws, and `executeAirdrop` ends with `Invalid public key input`.
On the empty lists `recipientPubkeys[0]` is `undefined` and the call ends with
`Invalid arguments: recipientLoader not provided.`.  In both the only step taken
is the derivation of the state address: no instruction is built or submitted. -/
theorem executeAirdrop_invalid_key_builds_nothing :
    ["short".toList].length = [JSNum.fin 1].length
    ∧ (sampleSdk.executeAirdrop emptyLedger ["short".toList] [.fin 1]).events
        = [.derivedAddress [.text "airdrop_state"]]
    ∧ (sampleSdk.executeAirdrop emptyLedger ["short".toList] [.fin 1]).result
        = .error "Invalid public key input"
    ∧ (sampleSdk.executeAirdrop emptyLedger [] []).events
        = [.derivedAddress [.text "airdrop_state"]]
    ∧ (sampleSdk.executeAirdrop emptyLedger [] []).result
        = .error "Invalid arguments: recipientLoader not provided." := by
  decide!

/-- C10, as amended: for equal-length, non-empty lists in which every recipient
string is accepted by `new PublicKey` and every amount times `LAMPORTS_PER_SOL` is
accepted by `new BN`, `executeAirdrop` derives the state address and then builds
and submits exactly one instruction; its recipient and amount arrays have the
length of the inputs, element `i` of the recipient array is the key of
`recipients[i]`, element `i` of the amount array is
`new BN(amountsInSol[i] * LAMPORTS_PER_SOL)`, and the result of the call is the
answer of that one submission. -/
theorem executeAirdrop_builds_one_instruction (sdk : AirdropSDK) (ledger : Ledger)
    (recipients : List JSString) (amountsInSol : List JSNum)
    (hlen : recipients.length = amountsInSol.length)
    (hne : recipients ≠ [])
    (hkeys : ∀ r ∈ recipients, ∃ k, PublicKey.new r = .ok k)
    (hamounts : ∀ a ∈ amountsInSol, ∃ n, BN.new (jsMul a LAMPORTS_PER_SOL) = .ok n) :
    ∃ ix : AirdropInstruction,
      (sdk.executeAirdrop ledger recipients amountsInSol).events
        = [.derivedAddress [.text "airdrop_state"], .submitted ix]
      ∧ ix.recipients.length = recipients.length
      ∧ ix.amounts.length = amountsInSol.length
      ∧ (∀ (i : Nat) r a, recipients[i]? = some r → amountsInSol[i]? = some a →
          ∃ k n, ix.recipients[i]? = some k ∧ ix.amounts[i]? = some n
            ∧ PublicKey.new r = .ok k ∧ BN.new (jsMul a LAMPORTS_PER_SOL) = .ok n)
      ∧ (sdk.executeAirdrop ledger recipients amountsInSol).result = (sdk.rpc ledger ix).1
      ∧ LAMPORTS_PER_SOL = .fin (10 ^ 9) := by
  obtain ⟨keys, hk⟩ := mapThrow_ok_of_forall PublicKey.new recipients hkeys
  obtain ⟨lamports, hl⟩ :=
    mapThrow_ok_of_forall (fun sol => BN.new (jsMul sol LAMPORTS_PER_SOL)) amountsInSol hamounts
  obtain ⟨hklen, hkidx⟩ := mapThrow_ok_aligned _ _ _ hk
  obtain ⟨hllen, hlidx⟩ := mapThrow_ok_aligned _ _ _ hl
  obtain ⟨loader, hloader⟩ : ∃ loader, keys.head? = some loader := by
    cases keys with
    | nil =>
      have : recipients.length = 0 := by simpa using hklen.symm
      exact absurd (List.length_eq_zero.mp this) hne
    | cons k ks => exact ⟨k, rfl⟩
  obtain ⟨hev, hres⟩ :=
    executeAirdrop_of_converted sdk ledger recipients amountsInSol keys lamports loader
      hlen hl hk hloader
  refine ⟨_, hev, hklen, hllen, ?_, hres, ?_⟩
  · intro i r a hr ha
    obtain ⟨k, hki, hkr⟩ := hkidx i r hr
    obtain ⟨n, hni, hna⟩ := hlidx i a ha
    exact ⟨k, n, hki, hni, hkr, hna⟩
  · unfold LAMPORTS_PER_SOL
    norm_num

/-- C10, the amended statement at the two addresses and amounts `1.5`, `2` of the
usage example: two steps, the second being the one instruction, which carries the
two keys and 1500000000, 2000000000 lamports in input order. -/
theorem executeAirdrop_builds_one_instruction_witness :
    (sampleSdk.executeAirdrop emptyLedger
        ["7xKXtg2CW87d97TXJSDpbD5jBkheTqA83TZRuJosgAsU".toList,
          "9WzDnYfhBz3Dv3YiPEZJCcUyBm8vUVPvKKBSUMEPvLea".toList]
        [.fin (3 / 2), .fin 2]).events.length = 2
    ∧ (sampleSdk.executeAirdrop emptyLedger
        ["7xKXtg2CW87d97TXJSDpbD5jBkheTqA83TZRuJosgAsU".toList,
          "9WzDnYfhBz3Dv3YiPEZJCcUyBm8vUVPvKKBSUMEPvLea".toList]
        [.fin (3 / 2), .fin 2]).events.getLast?
      = some (.submitted
          { recipients :=
              [⟨46733141855879098285762372194515348240999494138783838316680587882038796392939⟩,
                ⟨57238845051829605666759539952067224061558734119392279671140195790053754585719⟩]
            amounts := [1500000000, 2000000000]
            airdropState := ⟨1000⟩
            owner := ⟨2⟩
            recipientLoader :=
              some ⟨46733141855879098285762372194515348240999494138783838316680587882038796392939⟩
            systemProgram := ⟨0⟩ }) := by
  obtain ⟨ix, hev, -, -, -, -, -⟩ := executeAirdrop_builds_one_instruction sampleSdk emptyLedger
    ["7xKXtg2CW87d97TXJSDpbD5jBkheTqA83TZRuJosgAsU".toList,
      "9WzDnYfhBz3Dv3YiPEZJCcUyBm8vUVPvKKBSUMEPvLea".toList]
    [.fin (3 / 2), .fin 2] rfl (by simp)
    (by
      intro r hr
      simp only [List.mem_cons, List.mem_singleton, List.not_mem_nil, or_false] at hr
      rcases hr with rfl | rfl
      · exact ⟨⟨46733141855879098285762372194515348240999494138783838316680587882038796392939⟩,
          by decide!⟩
      · exact ⟨⟨57238845051829605666759539952067224061558734119392279671140195790053754585719⟩,
          by decide!⟩)
    (by
      intro a ha
      simp only [List.mem_cons, List.mem_singleton, List.not_mem_nil, or_false] at ha
      rcases ha with rfl | rfl
      · exact ⟨1500000000, by decide!⟩
      · exact ⟨2000000000, by decide!⟩)
  refine ⟨by rw [hev]; rfl, by decide!⟩

/-! ### `processAirdrop`, path by path -/

theorem validateInputs_snd_recentAirdrops (s : DashboardState) :
    (validateInputs s).2.recentAirdrops = s.recentAirdrops := by
  rcases validateInputs_true_or_error s with h | ⟨m, h⟩
  · rw [h]
  · rw [h]
    rfl

theorem validateInputs_snd_of_true (s : DashboardState) (h : (validateInputs s).1 = true) :
    (validateInputs s).2 = s := by
  rcases validateInputs_true_or_error s with ht | ⟨m, hm⟩
  · rw [ht]
  · rw [hm] at h
    exact absurd h (by simp)

theorem loadStats_recentAirdrops (env : Env) (ledger : Ledger) (s : DashboardState) :
    (loadStats env ledger s).1.recentAirdrops = s.recentAirdrops := by
  unfold loadStats
  cases env.sdk with
  | none => rfl
  | some sdk =>
    simp only []
    cases sdk.getStats ledger <;> rfl

theorem loadBalance_recentAirdrops (env : Env) (ledger : Ledger) (s : DashboardState) :
    (loadBalance env ledger s).1.recentAirdrops = s.recentAirdrops := by
  unfold loadBalance
  cases env.walletPublicKey with
  | none => rfl
  | some key =>
    simp only []
    cases env.hasConnection with
    | false => rfl
    | true =>
      simp only [Bool.not_true, Bool.false_eq_true, if_false]
      cases ledger.getBalance key <;> rfl

theorem processAirdrop_calls_of_validated (env : Env) (ledger : Ledger) (s : DashboardState)
    (sdk : AirdropSDK) (hsdk : env.sdk = some sdk) (hval : (validateInputs s).1 = true) :
    ∃ rest, (processAirdrop env ledger s).calls
      = .executeAirdrop (nonBlankLines s.recipients) ((nonBlankLines s.amounts).map parseFloat)
          :: rest := by
  unfold processAirdrop nonBlankLines
  rw [hsdk]
  simp only [hval, Bool.not_true, Bool.false_eq_true, if_false]
  split
  · exact ⟨_, rfl⟩
  · exact ⟨_, rfl⟩

theorem processAirdrop_recentAirdrops_of_success (env : Env) (ledger : Ledger)
    (s : DashboardState) (sdk : AirdropSDK) (txId : JSString)
    (hsdk : env.sdk = some sdk) (hval : (validateInputs s).1 = true)
    (hok : (sdk.executeAirdrop ledger (nonBlankLines s.recipients)
      ((nonBlankLines s.amounts).map parseFloat)).result = .ok txId) :
    (processAirdrop env ledger s).state.recentAirdrops
      = (recordOf env s txId :: s.recentAirdrops).take 5 := by
  unfold nonBlankLines at hok
  unfold processAirdrop
  rw [hsdk]
  simp only [hval, Bool.not_true, Bool.false_eq_true, if_false]
  rw [hok]
  simp only [showNotification, loadBalance_recentAirdrops, loadStats_recentAirdrops,
    validateInputs_snd_recentAirdrops]
  rfl

theorem processAirdrop_recentAirdrops_length (env : Env) (ledger : Ledger)
    (s : DashboardState) (h : s.recentAirdrops.length ≤ 5) :
    (processAirdrop env ledger s).state.recentAirdrops.length ≤ 5 := by
  unfold processAirdrop
  cases env.sdk with
  | none => exact h
  | some sdk =>
    simp only []
    cases hv : (validateInputs s).1 with
    | false =>
      simp only [Bool.not_false, if_true]
      rw [validateInputs_snd_recentAirdrops]
      exact h
    | true =>
      simp only [Bool.not_true, Bool.false_eq_true, if_false]
      split
      · simp only [showNotification, loadBalance_recentAirdrops, loadStats_recentAirdrops]
        rw [List.length_take]
        exact Nat.min_le_left _ _
      · simp only [showNotification, validateInputs_snd_recentAirdrops]
        exact h

theorem session_recentAirdrops_length (start : Run) (subs : List Submission)
    (h : start.state.recentAirdrops.length ≤ 5) :
    (session start subs).state.recentAirdrops.length ≤ 5 := by
  induction subs generalizing start with
  | nil => exact h
  | cons sub rest ih =>
    unfold session
    rw [List.foldl_cons]
    exact ih (submitForm start sub)
      (processAirdrop_recentAirdrops_length _ _ _ h)

theorem session_append_singleton (start : Run) (subs : List Submission) (last : Submission) :
    session start (subs ++ [last]) = submitForm (session start subs) last := by
  unfold session
  rw [List.foldl_append]
  rfl

/-! ### C11 -/

/-- C11: start from an empty `recentAirdrops`, run any number of submissions, then
one more that passes validation and whose `executeAirdrop` returns `txId`.  The
list then has the record of that airdrop first, followed by the first four
entries of the previous list in their order (its last entry is dropped when it
held five), and at most 5 entries; the bound of 5 holds after every session,
whatever its submissions do. -/
theorem recentAirdrops_bounded_most_recent_first (start : Run) (subs : List Submission)
    (last : Submission) (sdk : AirdropSDK) (txId : JSString)
    (hstart : start.state.recentAirdrops = [])
    (hsdk : last.env.sdk = some sdk)
    (hval : (validateInputs { (session start subs).state with
      recipients := last.recipients, amounts := last.amounts }).1 = true)
    (hok : (sdk.executeAirdrop (session start subs).ledger (nonBlankLines last.recipients)
      ((nonBlankLines last.amounts).map parseFloat)).result = .ok txId) :
    (session start (subs ++ [last])).state.recentAirdrops
      = recordOf last.env { (session start subs).state with
            recipients := last.recipients, amounts := last.amounts } txId
          :: (session start subs).state.recentAirdrops.take 4
    ∧ ((session start subs).state.recentAirdrops.length = 5 →
        (session start (subs ++ [last])).state.recentAirdrops
          = recordOf last.env { (session start subs).state with
                recipients := last.recipients, amounts := last.amounts } txId
              :: (session start subs).state.recentAirdrops.dropLast)
    ∧ (session start (subs ++ [last])).state.recentAirdrops.length ≤ 5
    ∧ ∀ others : List Submission, (session start others).state.recentAirdrops.length ≤ 5 := by
  have hbound : ∀ others : List Submission,
      (session start others).state.recentAirdrops.length ≤ 5 :=
    fun others => session_recentAirdrops_length start others (by rw [hstart]; decide)
  have hstep : (session start (subs ++ [last])).state.recentAirdrops
      = recordOf last.env { (session start subs).state with
            recipients := last.recipients, amounts := last.amounts } txId
          :: (session start subs).state.recentAirdrops.take 4 := by
    rw [session_append_singleton]
    unfold submitForm
    simp only []
    rw [processAirdrop_recentAirdrops_of_success last.env (session start subs).ledger
      { (session start subs).state with
        recipients := last.recipients, amounts := last.amounts } sdk txId hsdk hval hok]
    rfl
  refine ⟨hstep, ?_, hbound _, hbound⟩
  intro h5
  rw [hstep, List.dropLast_eq_take, h5]

/-- C11 on six submissions with clock readings 1 to 6: after the sixth the list
holds the records 6, 5, 4, 3, 2, the record 1 being evicted. -/
theorem recentAirdrops_bounded_most_recent_first_witness :
    (session sampleStart [sampleSubmission 1 "1", sampleSubmission 2 "2",
        sampleSubmission 3 "3", sampleSubmission 4 "4", sampleSubmission 5 "5"]
      ).state.recentAirdrops.map (fun e => e.id) = [5, 4, 3, 2, 1]
    ∧ (session sampleStart ([sampleSubmission 1 "1", sampleSubmission 2 "2",
        sampleSubmission 3 "3", sampleSubmission 4 "4", sampleSubmission 5 "5"]
          ++ [sampleSubmission 6 "6"])
      ).state.recentAirdrops.map (fun e => e.id) = [6, 5, 4, 3, 2]
    ∧ (session sampleStart ([sampleSubmission 1 "1", sampleSubmission 2 "2",
        sampleSubmission 3 "3", sampleSubmission 4 "4", sampleSubmission 5 "5"]
          ++ [sampleSubmission 6 "6"])
      ).state.recentAirdrops.length ≤ 5 := by
  have key := recentAirdrops_bounded_most_recent_first sampleStart
    [sampleSubmission 1 "1", sampleSubmission 2 "2", sampleSubmission 3 "3",
      sampleSubmission 4 "4", sampleSubmission 5 "5"]
    (sampleSubmission 6 "6") sampleSdk
    "5VERv8NMvzbJMEkV8xnrLkEaWRtSz9CosKDYjCJjBRnb".toList rfl rfl (by decide!) (by decide!)
  have h5 : (session sampleStart [sampleSubmission 1 "1", sampleSubmission 2 "2",
        sampleSubmission 3 "3", sampleSubmission 4 "4", sampleSubmission 5 "5"]
      ).state.recentAirdrops.map (fun e => e.id) = [5, 4, 3, 2, 1] := by decide!
  refine ⟨h5, ?_, key.2.2.1⟩
  rw [key.1, List.map_cons, List.map_take, h5]
  rfl

/-! ### C12 -/

/-- C12, counterexample to the claim as stated: the cached balance is `10`, the
ledger balance is `0`, the batch totals `1.5`.  `processAirdrop` calls
`sdk.executeAirdrop` first, with no balance read before it; the only balance read
of the call comes last, after the submission, and a comparison with the ledger
balance would have rejected the batch. -/
theorem submission_decided_without_balance_read :
    emptyLedger.getBalance ⟨2⟩ = .ok 0
    ∧ jsGt (calculateTotal "1.5".toList) (jsDiv (ofNat 0) LAMPORTS_PER_SOL) = true
    ∧ (processAirdrop sampleEnv emptyLedger
        (formState "7xKXtg2CW87d97TXJSDpbD5jBkheTqA83TZRuJosgAsU" "1.5" (.fin 10))).calls
      = [.executeAirdrop ["7xKXtg2CW87d97TXJSDpbD5jBkheTqA83TZRuJosgAsU".toList] [.fin (3 / 2)],
          .getStats, .getBalance ⟨2⟩] := by
  decide!

/-- C12, as amended: the balance-sufficiency decision of `processAirdrop` is made
against the cached `adminBalance` of the component state.  Either the handler makes
no call, or its first call is `sdk.executeAirdrop` (so no balance read precedes the
submission) and the total did not exceed the cached balance; and whether it submits
does not depend on the ledger. -/
theorem processAirdrop_decides_on_cached_balance (env : Env) (ledger : Ledger)
    (s : DashboardState) :
    ((processAirdrop env ledger s).calls = []
      ∨ ∃ rest, (processAirdrop env ledger s).calls
          = .executeAirdrop (nonBlankLines s.recipients)
              ((nonBlankLines s.amounts).map parseFloat) :: rest
          ∧ jsGt (calculateTotal s.amounts) s.adminBalance = false)
    ∧ ∀ other : Ledger,
        (processAirdrop env ledger s).calls = [] ↔ (processAirdrop env other s).calls = [] := by
  cases hsdk : env.sdk with
  | none =>
    have h : ∀ l : Ledger, (processAirdrop env l s).calls = [] := by
      intro l
      unfold processAirdrop
      rw [hsdk]
    exact ⟨Or.inl (h ledger), fun other => ⟨fun _ => h other, fun _ => h ledger⟩⟩
  | some sdk =>
    cases hv : (validateInputs s).1 with
    | false =>
      have h : ∀ l : Ledger, (processAirdrop env l s).calls = [] :=
        fun l => processAirdrop_calls_of_rejected env l s hv
      exact ⟨Or.inl (h ledger), fun other => ⟨fun _ => h other, fun _ => h ledger⟩⟩
    | true =>
      have h : ∀ l : Ledger, ∃ rest, (processAirdrop env l s).calls
          = .executeAirdrop (nonBlankLines s.recipients)
              ((nonBlankLines s.amounts).map parseFloat) :: rest :=
        fun l => processAirdrop_calls_of_validated env l s sdk hsdk hv
      refine ⟨Or.inr ?_, fun other => ?_⟩
      · obtain ⟨rest, hrest⟩ := h ledger
        exact ⟨rest, hrest, validateInputs_true_imp s hv⟩
      · obtain ⟨r1, h1⟩ := h ledger
        obtain ⟨r2, h2⟩ := h other
        rw [h1, h2]
        simp

/-! ### C13 -/

/-- C13, the code at the failing input: with a connected SDK, `loadStats` sets
`isInitialized` to true on every ledger, among them the ledger on which the state
account does not exist, because `getStats` of `airdrop-sdk.js` answers a missing
account with the default statistics instead of throwing. -/
theorem loadStats_missing_account_sets_initialized (sdk : AirdropSDK) (env : Env)
    (s : DashboardState) :
    emptyLedger.airdropState (sdk.getAirdropStatePDA).1 = .missing
    ∧ (loadStats { env with sdk := some sdk } emptyLedger s).1.isInitialized = true
    ∧ ∀ ledger : Ledger,
        (loadStats { env with sdk := some sdk } ledger s).1.isInitialized = true := by
  have h : ∀ ledger : Ledger,
      (loadStats { env with sdk := some sdk } ledger s).1.isInitialized = true := by
    intro ledger
    obtain ⟨stats, hs⟩ := getStats_never_throws sdk ledger
    unfold loadStats
    simp only []
    rw [hs]
  exact ⟨rfl, h emptyLedger, h⟩

/-! ### C14 -/

theorem jsGt_zero_of_not_rejected (p : JSNum) (h1 : isNaN p = false)
    (h2 : jsLe p (.fin 0) = false) : jsGt p (.fin 0) = true := by
  cases p with
  | nan => simp [isNaN] at h1
  | fin q =>
    simp only [jsLe, jsLt, Bool.or_eq_false_iff, decide_eq_false_iff_not, JSNum.fin.injEq,
      not_lt] at h2
    simp only [jsGt, jsLt, decide_eq_true_eq]
    exact lt_of_le_of_ne h2.2 (fun h => h2.1 h.symm)
  | posInf => rfl
  | negInf => simp [jsLe, jsLt] at h2

theorem validateInputs_true_checks (s : DashboardState) (h : (validateInputs s).1 = true) :
    (nonBlankLines s.recipients).length ≠ 0
    ∧ (nonBlankLines s.recipients).length = (nonBlankLines s.amounts).length
    ∧ (∀ r ∈ nonBlankLines s.recipients, 32 ≤ jsLength r ∧ jsLength r ≤ 44)
    ∧ ∀ a ∈ nonBlankLines s.amounts,
        isNaN (parseFloat a) = false ∧ jsLe (parseFloat a) (.fin 0) = false := by
  by_cases h0 : (nonBlankLines s.recipients).length = 0
  · rw [validateInputs_empty s h0] at h; simp at h
  by_cases h1 : (nonBlankLines s.recipients).length = (nonBlankLines s.amounts).length
  swap
  · rw [validateInputs_mismatch s h0 h1] at h; simp at h
  cases h2 : (nonBlankLines s.recipients).find?
      (fun recipient => jsLength recipient < 32 || jsLength recipient > 44) with
  | some r => rw [validateInputs_bad_address s r h0 h1 h2] at h; simp at h
  | none =>
    cases h3 : (nonBlankLines s.amounts).find?
        (fun amount => isNaN (parseFloat amount) || jsLe (parseFloat amount) (.fin 0)) with
    | some a => rw [validateInputs_bad_amount s a h0 h1 h2 h3] at h; simp at h
    | none =>
      refine ⟨h0, h1, ?_, ?_⟩
      · intro r hr
        have := List.find?_eq_none.mp h2 r hr
        simpa using this
      · intro a ha
        have := List.find?_eq_none.mp h3 a ha
        simpa using this

/-- C14: when `validateInputs` succeeds, `calculateTotal`, the total compared with
the balance, is the left-to-right sum of the amounts that `processAirdrop` passes to
`sdk.executeAirdrop`: on no amount line does `|| 0` replace the parsed value, the
submitted amount list is as long as the submitted recipient list, and every
submitted amount is `> 0`. -/
theorem validated_total_is_submitted_sum (s : DashboardState)
    (h : (validateInputs s).1 = true) :
    calculateTotal s.amounts
      = ((nonBlankLines s.amounts).map parseFloat).foldl jsAdd (.fin 0)
    ∧ (∀ a ∈ nonBlankLines s.amounts, orZero (parseFloat a) = parseFloat a)
    ∧ ((nonBlankLines s.amounts).map parseFloat).length = (nonBlankLines s.recipients).length
    ∧ (∀ x ∈ (nonBlankLines s.amounts).map parseFloat, jsGt x (.fin 0) = true)
    ∧ ∀ (env : Env) (ledger : Ledger) (sdk : AirdropSDK), env.sdk = some sdk →
        ∃ rest, (processAirdrop env ledger s).calls
          = .executeAirdrop (nonBlankLines s.recipients)
              ((nonBlankLines s.amounts).map parseFloat) :: rest := by
  obtain ⟨-, h1, -, h3⟩ := validateInputs_true_checks s h
  have hpos : ∀ a ∈ nonBlankLines s.amounts, jsGt (parseFloat a) (.fin 0) = true :=
    fun a ha => jsGt_zero_of_not_rejected _ (h3 a ha).1 (h3 a ha).2
  refine ⟨calculateTotal_eq_sum s.amounts hpos,
    fun a ha => (jsGt_zero_not_rejected _ (hpos a ha)).2.2, ?_, ?_, ?_⟩
  · rw [List.length_map, h1]
  · intro x hx
    obtain ⟨a, ha, rfl⟩ := List.mem_map.mp hx
    exact hpos a ha
  · intro env ledger sdk hsdk
    exact processAirdrop_calls_of_validated env ledger s sdk hsdk h

/-- C14 at two valid addresses, amounts `1.5` and `2.0`, balance `10`: the total
`3.5` is the sum of the submitted amounts `1.5`, `2`. -/
theorem validated_total_is_submitted_sum_witness :
    calculateTotal (formState
        ("7xKXtg2CW87d97TXJSDpbD5jBkheTqA83TZRuJosgAsU\n" ++
          "9WzDnYfhBz3Dv3YiPEZJCcUyBm8vUVPvKKBSUMEPvLea") "1.5\n2.0" (.fin 10)).amounts
      = jsAdd (jsAdd (.fin 0) (.fin (3 / 2))) (.fin 2)
    ∧ (processAirdrop sampleEnv emptyLedger (formState
        ("7xKXtg2CW87d97TXJSDpbD5jBkheTqA83TZRuJosgAsU\n" ++
          "9WzDnYfhBz3Dv3YiPEZJCcUyBm8vUVPvKKBSUMEPvLea") "1.5\n2.0" (.fin 10))).calls.head?
      = some (.executeAirdrop
          ["7xKXtg2CW87d97TXJSDpbD5jBkheTqA83TZRuJosgAsU".toList,
            "9WzDnYfhBz3Dv3YiPEZJCcUyBm8vUVPvKKBSUMEPvLea".toList]
          [.fin (3 / 2), .fin 2]) := by
  have key := validated_total_is_submitted_sum (formState
        ("7xKXtg2CW87d97TXJSDpbD5jBkheTqA83TZRuJosgAsU\n" ++
          "9WzDnYfhBz3Dv3YiPEZJCcUyBm8vUVPvKKBSUMEPvLea") "1.5\n2.0" (.fin 10)) (by decide!)
  constructor
  · rw [key.1]
    decide!
  · obtain ⟨rest, hrest⟩ := key.2.2.2.2 sampleEnv emptyLedger sampleSdk rfl
    rw [hrest, List.head?_cons]
    decide!

end Airdrop
